import Mathlib

/-!
Shallow embedding of the Fabrik printer-registry backend
(`src/lib/server/printerStore.ts`, the `src/routes/api/*` proxy endpoints and
the client-side state derivation in the printers page) together with proofs
about the snapshot-store invariants, the mutation operations, the progress
normalization and the state-variant derivation.

JavaScript runtime values are modelled explicitly: numbers as an inductive
that distinguishes NaN and the two infinities from finite rationals, object
fields as an inductive that distinguishes `null`, absent/`undefined`, strings,
numbers and other values, and array/map entries as objects versus truthy and
falsy non-objects.  JS objects used as string-keyed maps are modelled as
association lists in insertion order, with `Object.entries`,
`Object.fromEntries`, property assignment and `delete` given their JS
semantics.  `Date.now()` and `randomUUID()` are modelled as explicit
parameters (a rational timestamp and fresh id strings) of the operations that
call them.
-/

set_option maxHeartbeats 1000000

namespace Fabrik

/-- A JavaScript number: NaN, the infinities, or a finite value (modelled as a
rational; every numeric literal appearing in the repository is exactly
representable). -/
inductive JNum where
  | nan
  | inf
  | ninf
  | fin (q : ℚ)
deriving DecidableEq

/-- A JavaScript value sitting in an object field, as far as the store's
`typeof`-based validators can observe it: `null`, absent (reading gives
`undefined`), a string, a number, or any other value (boolean, object,
array, ...). -/
inductive JField where
  | null
  | missing
  | str (s : String)
  | num (n : JNum)
  | other
deriving DecidableEq

/-- A JavaScript value appearing as an array element or as a map value, as far
as the `!entry || typeof entry !== 'object'` guards can observe it: a falsy
value (`null`, `undefined`, `0`, `''`, `false`, `NaN`), a truthy non-object
(string, number, boolean `true`), or an object with payload `α`. -/
inductive JEntry (α : Type) where
  | falsyVal
  | truthyNonObj
  | obj (a : α)
deriving DecidableEq

/-- The fields the store reads off a raw node entry (`PrinterNode` shape). -/
structure RawNode where
  id : JField
  name : JField
  createdAt : JField
deriving DecidableEq

/-- The fields the store reads off a raw printer entry (`PrinterConfig`
shape). -/
structure RawPrinter where
  id : JField
  name : JField
  baseUrl : JField
  nodeId : JField
  createdAt : JField
deriving DecidableEq

/-- The fields the store reads off a raw stored-state entry
(`StoredPrinterState` shape). -/
structure RawState where
  label : JField
  variant : JField
  progress : JField
  error : JField
  updatedAt : JField
  message : JField
deriving DecidableEq

/-- The `states` field of a raw snapshot: absent/falsy/non-object values all
collapse to "no states object" (the code checks
`snapshot?.states && typeof snapshot.states === 'object'`); otherwise a JS
object modelled as an association list in key order. -/
inductive JStates where
  | absent
  | obj (entries : List (String × JEntry RawState))
deriving DecidableEq

/-- A parsed raw snapshot object (`Partial<PrinterSnapshot>` as produced by
`JSON.parse`): each array field is either a real array (`some`) or some other
value (`none`, the `Array.isArray` check fails). -/
structure RawSnapshot where
  nodes : Option (List (JEntry RawNode))
  printers : Option (List (JEntry RawPrinter))
  states : JStates
  updatedAt : JField
deriving DecidableEq

/-- Check `typeof f === 'string' && f.length > 0`. -/
def isNonEmptyStr : JField → Bool
  | .str s => !s.isEmpty
  | _ => false

/-- Check `typeof f === 'string'`. -/
def isStr : JField → Bool
  | .str _ => true
  | _ => false

/-- Check `typeof f === 'number'`. -/
def isNumF : JField → Bool
  | .num _ => true
  | _ => false

/-- Check `f === null || typeof f === 'string'`. -/
def isNullOrStr : JField → Bool
  | .null => true
  | .str _ => true
  | _ => false

/-- Check `f === null || typeof f === 'number'`. -/
def isNullOrNum : JField → Bool
  | .null => true
  | .num _ => true
  | _ => false

/-- Validator `isValidNode` from printerStore.ts: the entry is a truthy object whose
`id` and `name` are non-empty strings and whose `createdAt` is a number. -/
def isValidNode : JEntry RawNode → Bool
  | .obj node => isNonEmptyStr node.id && isNonEmptyStr node.name && isNumF node.createdAt
  | _ => false

/-- Validator `isValidPrinter` from printerStore.ts: the entry is a truthy object whose
`id`, `name` and `baseUrl` are non-empty strings, whose `nodeId` is a string
contained in the given node-id set, and whose `createdAt` is a number. -/
def isValidPrinter (nodeIds : List String) : JEntry RawPrinter → Bool
  | .obj printer =>
      isNonEmptyStr printer.id && isNonEmptyStr printer.name &&
      isNonEmptyStr printer.baseUrl &&
      (match printer.nodeId with
        | .str s => nodeIds.contains s
        | _ => false) &&
      isNumF printer.createdAt
  | _ => false

/-- Validator `isValidState` from printerStore.ts: the entry is a truthy object with a
non-empty string `label`, a string `variant` (any string - the variant
enumeration is not checked here), a null-or-number `progress` (no range
check), a null-or-string `error`, a null-or-number `updatedAt` and a
null-or-string `message`. -/
def isValidState : JEntry RawState → Bool
  | .obj state =>
      isNonEmptyStr state.label && isStr state.variant &&
      isNullOrNum state.progress && isNullOrStr state.error &&
      isNullOrNum state.updatedAt && isNullOrStr state.message
  | _ => false

/-- Read `node.id` as an id string (the code maps `node => node.id` over
entries that passed `isValidNode`, for which the id is a string). -/
def nodeIdOf : JEntry RawNode → Option String
  | .obj node =>
      match node.id with
      | .str s => some s
      | _ => none
  | _ => none

/-- Read `printer.id` as an id string. -/
def printerIdOf : JEntry RawPrinter → Option String
  | .obj printer =>
      match printer.id with
      | .str s => some s
      | _ => none
  | _ => none

/-- The `id` property of a node entry as a JS value (`undefined` when the
entry is not an object). -/
def nodeIdField : JEntry RawNode → JField
  | .obj node => node.id
  | _ => .missing

/-- The `nodeId` property of a printer entry as a JS value. -/
def printerNodeIdField : JEntry RawPrinter → JField
  | .obj printer => printer.nodeId
  | _ => .missing

/-- The `id` property of a printer entry as a JS value. -/
def printerIdField : JEntry RawPrinter → JField
  | .obj printer => printer.id
  | _ => .missing

/-! ### JS objects as string-keyed maps (association lists) -/

/-- Property read `o[k]`. -/
def getEntry {α : Type} (l : List (String × α)) (k : String) : Option α :=
  (l.find? (fun e => e.1 = k)).map (·.2)

/-- Property assignment `o[k] = v`: an existing key keeps its position and
gets the new value, a new key is appended. -/
def setEntry {α : Type} (l : List (String × α)) (k : String) (v : α) : List (String × α) :=
  if l.any (fun e => e.1 = k) then
    l.map (fun e => if e.1 = k then (k, v) else e)
  else
    l ++ [(k, v)]

/-- Deletion `delete o[k]`. -/
def deleteEntry {α : Type} (l : List (String × α)) (k : String) : List (String × α) :=
  l.filter (fun e => e.1 ≠ k)

/-- Model of `Object.fromEntries`: assign each pair in order into a fresh object. -/
def fromEntries {α : Type} (l : List (String × α)) : List (String × α) :=
  l.foldl (fun acc e => setEntry acc e.1 e.2) []

/-- The keys of a JS-object association list. -/
def keysOf {α : Type} (l : List (String × α)) : List String :=
  l.map (·.1)

/-! ### Snapshots and sanitization -/

/-- A `PrinterSnapshot` value as held in memory by the store: `nodes` and
`printers` are arrays of (possibly raw) entries, `states` is `undefined` or a
JS object, `updatedAt` is a number. -/
structure Snapshot where
  nodes : List (JEntry RawNode)
  printers : List (JEntry RawPrinter)
  states : Option (List (String × JEntry RawState))
  updatedAt : JNum
deriving DecidableEq

/-- The core of `sanitizeSnapshot`, applied to the already-extracted pieces:
filter the nodes through `isValidNode`, the printers through `isValidPrinter`
against the surviving node ids, keep the state entries whose key is a
surviving printer id and whose value passes `isValidState` (collapsing an
empty result to `undefined`), and keep `updatedAt` when it is a number,
defaulting to `now()` (the parameter `t`). -/
def sanitizeParts (nodesSource : List (JEntry RawNode))
    (printersSource : List (JEntry RawPrinter))
    (statesSource : Option (List (String × JEntry RawState)))
    (updatedAtField : JField) (t : ℚ) : Snapshot :=
  let nodes := nodesSource.filter isValidNode
  let nodeIds := nodes.filterMap nodeIdOf
  let printers := printersSource.filter (isValidPrinter nodeIds)
  let statesEntries := statesSource.getD []
  let printerIds := printers.filterMap printerIdOf
  let validStates := statesEntries.filter
    (fun e => printerIds.contains e.1 && isValidState e.2)
  let states := if validStates.length > 0 then some (fromEntries validStates) else none
  { nodes := nodes
    printers := printers
    states := states
    updatedAt :=
      match updatedAtField with
      | .num n => n
      | _ => .fin t }

/-- Function `sanitizeSnapshot` on a parsed raw value (`Partial<PrinterSnapshot> |
null | undefined`): a non-object or nullish top level contributes nothing,
non-array `nodes`/`printers` collapse to `[]`, a non-object `states`
collapses to `undefined`. -/
def sanitizeSnapshot (raw : Option RawSnapshot) (t : ℚ) : Snapshot :=
  match raw with
  | none => sanitizeParts [] [] none .missing t
  | some r =>
      sanitizeParts (r.nodes.getD []) (r.printers.getD [])
        (match r.states with
          | .absent => none
          | .obj l => some l)
        r.updatedAt t

/-- Function `sanitizeSnapshot` applied to a snapshot produced by a mutator (the code
calls `sanitizeSnapshot(mutator(current))` on a full `PrinterSnapshot`
object, whose arrays are genuine arrays, whose `states` is `undefined` or an
object and whose `updatedAt` is a number). -/
def sanitizeOfSnapshot (s : Snapshot) (t : ℚ) : Snapshot :=
  sanitizeParts s.nodes s.printers s.states (.num s.updatedAt) t

/-- The node ids present in a snapshot. -/
def snapshotNodeIds (s : Snapshot) : List String :=
  s.nodes.filterMap nodeIdOf

/-- The printer ids present in a snapshot. -/
def snapshotPrinterIds (s : Snapshot) : List String :=
  s.printers.filterMap printerIdOf

/-- The keys of the state map of a snapshot. -/
def stateKeys (s : Snapshot) : List String :=
  keysOf (s.states.getD [])

/-- Predicate that this printer's `nodeId` resolves to a node in the given id list: the
entry is an object whose `nodeId` is a string contained in the list. -/
def printerRefOk (nodeIds : List String) : JEntry RawPrinter → Bool
  | .obj printer =>
      match printer.nodeId with
      | .str nid => nodeIds.contains nid
      | _ => false
  | _ => false

/-- The sanitization invariant of claim C1, decidably: every printer entry is
an object whose `nodeId` is the id of some node present in the snapshot, and
every state-map key is the id of some printer present in the snapshot. -/
def snapInv (s : Snapshot) : Bool :=
  s.printers.all (printerRefOk (snapshotNodeIds s)) &&
  (stateKeys s).all (fun k => (snapshotPrinterIds s).contains k)

/-! ### Disk, cache, store state -/

/-- The state of the on-disk store file: the file is missing (`ENOENT`), the
read or `JSON.parse` fails for any other reason, or it holds a parsed value
(`none` for JSON that parses to something other than an object). -/
inductive Disk where
  | missing
  | corrupt
  | stored (raw : Option RawSnapshot)
deriving DecidableEq

/-- The module-level snapshot cache entry: a snapshot and its expiry time. -/
structure SnapshotCache where
  snapshot : Snapshot
  expiresAt : ℚ
deriving DecidableEq

/-- The mutable state the store module closes over: the disk file and the
in-memory cache. -/
structure Store where
  disk : Disk
  cache : Option SnapshotCache
deriving DecidableEq

/-- Model of `s.trim()` over the character list (so that concrete instances
evaluate); trims leading and trailing whitespace. -/
def jsTrim (s : String) : String :=
  ⟨((s.data.dropWhile Char.isWhitespace).reverse.dropWhile Char.isWhitespace).reverse⟩

/-- The empty snapshot the error branches of `readSnapshotFromDisk` build:
`{nodes: [], printers: [], states: undefined, updatedAt: now()}`. -/
def emptySnapshot (t : ℚ) : Snapshot :=
  { nodes := [], printers := [], states := none, updatedAt := .fin t }

/-- Function `readSnapshotFromDisk`: parse and sanitize the file; a missing file
(`ENOENT`) and any other read/parse failure both degrade to the empty
snapshot instead of propagating the error (the return type carries no error
case). -/
def readSnapshotFromDisk (d : Disk) (t : ℚ) : Snapshot :=
  match d with
  | .missing => emptySnapshot t
  | .corrupt => emptySnapshot t
  | .stored raw => sanitizeSnapshot raw t

/-- Model of `JSON.stringify` on a number: NaN and the infinities serialize as
`null`. -/
def jsonOfNum (n : JNum) : JField :=
  match n with
  | .fin q => .num (.fin q)
  | _ => .null

/-- Model of `JSON.stringify` then `JSON.parse` on a field value (non-finite numbers
become `null`; other shapes the store ever writes survive unchanged). -/
def jsonOfField (f : JField) : JField :=
  match f with
  | .num n => jsonOfNum n
  | x => x

/-- Serialization round trip of a node entry. -/
def jsonOfNodeEntry : JEntry RawNode → JEntry RawNode
  | .obj node =>
      .obj { id := jsonOfField node.id, name := jsonOfField node.name
             createdAt := jsonOfField node.createdAt }
  | e => e

/-- Serialization round trip of a printer entry. -/
def jsonOfPrinterEntry : JEntry RawPrinter → JEntry RawPrinter
  | .obj printer =>
      .obj { id := jsonOfField printer.id, name := jsonOfField printer.name
             baseUrl := jsonOfField printer.baseUrl
             nodeId := jsonOfField printer.nodeId
             createdAt := jsonOfField printer.createdAt }
  | e => e

/-- Serialization round trip of a state entry. -/
def jsonOfStateEntry : JEntry RawState → JEntry RawState
  | .obj state =>
      .obj { label := jsonOfField state.label, variant := jsonOfField state.variant
             progress := jsonOfField state.progress, error := jsonOfField state.error
             updatedAt := jsonOfField state.updatedAt
             message := jsonOfField state.message }
  | e => e

/-- The raw value that `JSON.parse` recovers from the pretty-printed
`JSON.stringify(snapshot)` the store writes: arrays stay arrays, an
`undefined` states field is omitted, numbers lose NaN/infinities to
`null`. -/
def rawOfSnapshot (s : Snapshot) : RawSnapshot :=
  { nodes := some (s.nodes.map jsonOfNodeEntry)
    printers := some (s.printers.map jsonOfPrinterEntry)
    states :=
      match s.states with
      | none => .absent
      | some l => .obj (l.map (fun e => (e.1, jsonOfStateEntry e.2)))
    updatedAt := jsonOfNum s.updatedAt }

/-- Function `writeSnapshotToDisk`: rewrite the whole file and refresh the cache to
the just-written snapshot with a 5-second TTL. -/
def writeSnapshotToDisk (s : Snapshot) (t : ℚ) (_st : Store) : Store :=
  { disk := .stored (some (rawOfSnapshot s))
    cache := some { snapshot := s, expiresAt := t + 5000 } }

/-- Function `updateSnapshot`: read the current snapshot from disk, apply the mutator
(whose `throw` is modelled as `Except.error`, leaving the store untouched),
re-sanitize, stamp `updatedAt = now()` and persist. -/
def updateSnapshot (mutator : Snapshot → Except String Snapshot) (t : ℚ) (st : Store) :
    Except String Snapshot × Store :=
  let current := readSnapshotFromDisk st.disk t
  match mutator current with
  | .error e => (.error e, st)
  | .ok next0 =>
      let next := { sanitizeOfSnapshot next0 t with updatedAt := .fin t }
      (.ok next, writeSnapshotToDisk next t st)

/-- The optional defaults accepted by `getSnapshot`. -/
structure Defaults where
  baseUrl : Option String
  printerName : Option String
deriving DecidableEq

/-- JS truthiness of `defaults?.baseUrl` (`undefined` and `''`are falsy). -/
def optStrTruthy : Option String → Bool
  | none => false
  | some s => !s.isEmpty

/-- Function `maybeSeedDefaults`: when the snapshot has zero nodes or zero printers
and a truthy default `baseUrl` is supplied, build a snapshot holding exactly
one fresh node named "Nodo principal" and one fresh printer (named by the
trimmed `printerName` default, falling back to "Impresora principal"),
carrying over the incoming `states`, persist it and return it; otherwise
return the snapshot unchanged.  `nodeIdGen`/`printerIdGen` stand for the two
`createId()` calls. -/
def maybeSeedDefaults (snapshot : Snapshot) (defaults : Option Defaults)
    (nodeIdGen printerIdGen : String) (t : ℚ) (st : Store) : Snapshot × Store :=
  if snapshot.nodes.length > 0 && snapshot.printers.length > 0 then
    (snapshot, st)
  else
    let baseUrl := defaults.bind (·.baseUrl)
    let printerName :=
      let trimmed := jsTrim ((defaults.bind (·.printerName)).getD "")
      if trimmed.isEmpty then "Impresora principal" else trimmed
    if !optStrTruthy baseUrl then
      (snapshot, st)
    else
      let seeded : Snapshot :=
        { nodes := [.obj { id := .str nodeIdGen, name := .str "Nodo principal"
                           createdAt := .num (.fin t) }]
          printers := [.obj { id := .str printerIdGen, name := .str printerName
                              baseUrl := .str (baseUrl.getD "")
                              nodeId := .str nodeIdGen, createdAt := .num (.fin t) }]
          states := snapshot.states
          updatedAt := .fin t }
      (seeded, writeSnapshotToDisk seeded t st)

/-- Function `getSnapshot`: serve from the cache while it is fresh, otherwise read
from disk, possibly seed defaults, and refresh the cache. -/
def getSnapshot (defaults : Option Defaults) (nodeIdGen printerIdGen : String)
    (t : ℚ) (st : Store) : Snapshot × Store :=
  match st.cache with
  | some c =>
      if c.expiresAt > t then
        (c.snapshot, st)
      else
        let s0 := readSnapshotFromDisk st.disk t
        let res := maybeSeedDefaults s0 defaults nodeIdGen printerIdGen t st
        (res.1, { res.2 with cache := some { snapshot := res.1, expiresAt := t + 5000 } })
  | none =>
      let s0 := readSnapshotFromDisk st.disk t
      let res := maybeSeedDefaults s0 defaults nodeIdGen printerIdGen t st
      (res.1, { res.2 with cache := some { snapshot := res.1, expiresAt := t + 5000 } })

/-- The input object of `registerPrinter`. -/
structure RegisterInput where
  name : String
  baseUrl : String
  nodeId : Option String
  nodeName : Option String
deriving DecidableEq

/-- The mutator closure `registerPrinter` passes to `updateSnapshot`: attach
the new printer to the requested existing node or to a freshly created node
named by the trimmed `nodeName`; drop a colliding truthy stale state
entry. -/
def registerPrinterMutator (input : RegisterInput) (newNodeId newPrinterId : String)
    (t : ℚ) (current : Snapshot) : Except String Snapshot :=
  let name := jsTrim input.name
  let baseUrl := jsTrim input.baseUrl
  let nodes := current.nodes
  let printers := current.printers
  let states := current.states
  let nodeExists : Bool :=
    match input.nodeId with
    | some target => !target.isEmpty && nodes.any (fun e => nodeIdField e == .str target)
    | none => false
  let mkPrinter (targetNodeId : String) : JEntry RawPrinter :=
    .obj { id := .str newPrinterId, name := .str name, baseUrl := .str baseUrl
           nodeId := .str targetNodeId, createdAt := .num (.fin t) }
  let finish (nodes : List (JEntry RawNode)) (targetNodeId : String) :
      Except String Snapshot :=
    let printer := mkPrinter targetNodeId
    let states :=
      match states with
      | none => none
      | some l =>
          match getEntry l newPrinterId with
          | some v =>
              match v with
              | .obj _ => some (deleteEntry l newPrinterId)
              | .truthyNonObj => some (deleteEntry l newPrinterId)
              | .falsyVal => some l
          | none => some l
    .ok { nodes := nodes, printers := printers ++ [printer]
          states := states, updatedAt := current.updatedAt }
  if nodeExists then
    finish nodes ((input.nodeId).getD "")
  else
    let nodeName := jsTrim ((input.nodeName).getD "")
    if nodeName.isEmpty then
      .error "El nodo de destino no es válido."
    else
      let newNode : JEntry RawNode :=
        .obj { id := .str newNodeId, name := .str nodeName, createdAt := .num (.fin t) }
      finish (nodes ++ [newNode]) newNodeId

/-- Function `registerPrinter`: validate the trimmed name and base URL (failing with
a field-naming message and no write otherwise), then run the registration
mutator through `updateSnapshot`.  `newNodeId`/`newPrinterId` stand for the
`createId()` calls. -/
def registerPrinter (input : RegisterInput) (newNodeId newPrinterId : String)
    (t : ℚ) (st : Store) : Except String Snapshot × Store :=
  let name := jsTrim input.name
  let baseUrl := jsTrim input.baseUrl
  if name.isEmpty then
    (.error "El nombre de la impresora es obligatorio.", st)
  else if baseUrl.isEmpty then
    (.error "La URL base es obligatoria.", st)
  else
    updateSnapshot (registerPrinterMutator input newNodeId newPrinterId t) t st

/-- Function `removePrinter`: require a non-empty id, fail when no printer carries it,
otherwise drop the printer and its state entry. -/
def removePrinter (printerId : String) (t : ℚ) (st : Store) :
    Except String Snapshot × Store :=
  if printerId.isEmpty then
    (.error "Se requiere el identificador de la impresora.", st)
  else
    updateSnapshot (fun current =>
      let printers := current.printers.filter (fun e => printerIdField e != .str printerId)
      if printers.length = current.printers.length then
        .error "La impresora indicada no existe."
      else
        let states :=
          match current.states with
          | none => none
          | some l => some (deleteEntry l printerId)
        .ok { nodes := current.nodes, printers := printers
              states := states, updatedAt := current.updatedAt }) t st

/-- The mutator closure `removeNode` passes to `updateSnapshot`: drop the
node, every printer referencing it, and every state entry whose key no
longer matches a surviving printer (collapsing an emptied map to
`undefined`). -/
def removeNodeMutator (nodeId : String) (current : Snapshot) : Except String Snapshot :=
  let nodes := current.nodes.filter (fun e => nodeIdField e != .str nodeId)
  if nodes.length = current.nodes.length then
    .error "El nodo indicado no existe."
  else
    let printers := current.printers.filter (fun e => printerNodeIdField e != .str nodeId)
    let states :=
      match current.states with
      | none => none
      | some l =>
          let kept := l.filter (fun e => printers.any (fun p => printerIdField p == .str e.1))
          if kept.length = 0 then none else some kept
    .ok { nodes := nodes, printers := printers
          states := states, updatedAt := current.updatedAt }

/-- Function `removeNode`: require a non-empty id, then run the removal mutator
through `updateSnapshot`. -/
def removeNode (nodeId : String) (t : ℚ) (st : Store) :
    Except String Snapshot × Store :=
  if nodeId.isEmpty then
    (.error "Se requiere el identificador del nodo.", st)
  else
    updateSnapshot (removeNodeMutator nodeId) t st

/-- Function `upsertPrinterStates`: fold the input entries over a copy of the current
state map, assigning exactly those whose key is a current printer id and
whose value passes `isValidState`; an emptied map collapses to
`undefined`. -/
def upsertPrinterStates (entries : List (String × JEntry RawState)) (t : ℚ)
    (st : Store) : Except String Snapshot × Store :=
  updateSnapshot (fun current =>
    let activePrinterIds := snapshotPrinterIds current
    let states0 := (current.states).getD []
    let states := entries.foldl (fun acc e =>
      if activePrinterIds.contains e.1 && isValidState e.2 then
        setEntry acc e.1 e.2
      else
        acc) states0
    .ok { nodes := current.nodes, printers := current.printers
          states := if states.length > 0 then some states else none
          updatedAt := current.updatedAt }) t st

/-- Function `clearCache`. -/
def clearCache (st : Store) : Store :=
  { disk := st.disk, cache := none }

/-! ### Client-side state derivation (printers page) -/

/-- The fixed `StateVariant` enumeration of the data model. -/
inductive StateVariant where
  | printing
  | idle
  | paused
  | complete
  | error
  | unknown
deriving DecidableEq

/-- A derived display state: label and variant. -/
structure StateDisplay where
  label : String
  variant : StateVariant
deriving DecidableEq

/-- Model of `s.toLowerCase()` (ASCII-faithful). -/
def lowerStr (s : String) : String :=
  ⟨s.data.map Char.toLower⟩

/-- Model of `s.includes(pat)`: substring containment. -/
def containsSub (s pat : String) : Bool :=
  (s.data.tails).any (fun suf => pat.data.isPrefixOf suf)

/-- Function `resolveStateDisplay` from the printers page: lowercase the raw status
string and run ordered substring matching, first match wins; a falsy raw
(null or empty) yields the fixed "Desconocido" label; an unmatched raw is
kept verbatim as the label with variant `unknown`. -/
def resolveStateDisplay (raw : Option String) : StateDisplay :=
  match raw with
  | none => { label := "Desconocido", variant := .unknown }
  | some r =>
      if r.isEmpty then
        { label := "Desconocido", variant := .unknown }
      else
        let normalized := lowerStr r
        if containsSub normalized "print" then
          { label := "Imprimiendo", variant := .printing }
        else if containsSub normalized "complete" || containsSub normalized "done" ||
            containsSub normalized "finish" then
          { label := "Completado", variant := .complete }
        else if containsSub normalized "pause" then
          { label := "Pausado", variant := .paused }
        else if containsSub normalized "standby" || containsSub normalized "idle" ||
            containsSub normalized "ready" then
          { label := "Standby", variant := .idle }
        else if containsSub normalized "error" || containsSub normalized "fault" ||
            containsSub normalized "halt" then
          { label := "Error", variant := .error }
        else
          { label := r, variant := .unknown }

/-- The ordered matching rules as the specification words them: patterns,
label, variant, first match wins.  Written independently of
`resolveStateDisplay` to compare the two. -/
def specStateRules : List (List String × String × StateVariant) :=
  [ (["print"], "Imprimiendo", .printing)
  , (["complete", "done", "finish"], "Completado", .complete)
  , (["pause"], "Pausado", .paused)
  , (["standby", "idle", "ready"], "Standby", .idle)
  , (["error", "fault", "halt"], "Error", .error) ]

/-- The specification's description of the derivation: case-insensitive
ordered substring matching over `specStateRules` with the first match
winning, the raw string kept verbatim on no match, and a fixed
"Unknown"-equivalent label on an empty or missing string. -/
def resolveStateDisplaySpec (raw : Option String) : StateDisplay :=
  match raw with
  | none => { label := "Desconocido", variant := .unknown }
  | some r =>
      if r.isEmpty then
        { label := "Desconocido", variant := .unknown }
      else
        match specStateRules.find?
            (fun rule => rule.1.any (fun pat => containsSub (lowerStr r) pat)) with
        | some rule => { label := rule.2.1, variant := rule.2.2 }
        | none => { label := r, variant := .unknown }

/-- A `number | null | undefined` value (the TS input type of
`resolveProgress`). -/
inductive ProgressValue where
  | null
  | undef
  | num (n : JNum)
deriving DecidableEq

/-- JS `<=` on numbers: false whenever either side is NaN. -/
def jleq : JNum → JNum → Bool
  | .nan, _ => false
  | _, .nan => false
  | .ninf, _ => true
  | _, .inf => true
  | .inf, _ => false
  | .fin a, .fin b => a ≤ b
  | .fin _, .ninf => false

/-- JS multiplication by 100 (the infinities absorb). -/
def mul100 : JNum → JNum
  | .nan => .nan
  | .inf => .inf
  | .ninf => .ninf
  | .fin q => .fin (q * 100)

/-- Model of `Math.min` on two numbers. -/
def jsMin : JNum → JNum → JNum
  | .nan, _ => .nan
  | _, .nan => .nan
  | .ninf, _ => .ninf
  | _, .ninf => .ninf
  | .inf, b => b
  | a, .inf => a
  | .fin a, .fin b => .fin (min a b)

/-- Model of `Math.max` on two numbers. -/
def jsMax : JNum → JNum → JNum
  | .nan, _ => .nan
  | _, .nan => .nan
  | .inf, _ => .inf
  | _, .inf => .inf
  | .ninf, b => b
  | a, .ninf => a
  | .fin a, .fin b => .fin (max a b)

/-- Function `resolveProgress` from the printers page: null, undefined and NaN yield
null (`Number.isNaN` is the only non-finiteness check); otherwise a value
`<= 1` is scaled by 100 and the result is clamped by
`Math.max(0, Math.min(100, progress))`. -/
def resolveProgress : ProgressValue → Option JNum
  | .null => none
  | .undef => none
  | .num n =>
      if n = .nan then
        none
      else
        let progress := if jleq n (.fin 1) then mul100 n else n
        some (jsMax (.fin 0) (jsMin (.fin 100) progress))

/-! ### Server-side telemetry coercion (printer-overview endpoint) -/

/-- Model of `Number.isFinite`. -/
def isFiniteNum : JNum → Bool
  | .fin _ => true
  | _ => false

/-- Function `buildNumber` from the printer-overview endpoint: null/undefined yield
null; a number is kept only when finite; a string is trimmed and converted
via the JS `Number()` coercion (passed in as `toNum`, the ECMAScript
string-to-number primitive, kept abstract), kept only when finite; anything
else yields null. -/
def buildNumber (toNum : String → JNum) : JField → Option ℚ
  | .null => none
  | .missing => none
  | .num n =>
      match n with
      | .fin q => some q
      | _ => none
  | .str s =>
      let trimmed := jsTrim s
      if trimmed.isEmpty then
        none
      else
        match toNum trimmed with
        | .fin q => some q
        | _ => none
  | .other => none

/-- Function `buildProgress` from the printer-overview endpoint: coerce through
`buildNumber`, scale a value `<= 1` by 100, clamp into `[0, 100]`. -/
def buildProgress (toNum : String → JNum) (value : JField) : Option ℚ :=
  match buildNumber toNum value with
  | none => none
  | some num =>
      let normalized := if num ≤ 1 then num * 100 else num
      some (max 0 (min 100 normalized))

/-! ### Upstream proxy endpoints: timeout wiring and failure envelopes -/

/-- The four upstream proxy endpoints of the dashboard. -/
inductive ProxyEndpoint where
  | printerOverview
  | printerControl
  | printerConsole
  | printerMacros
deriving DecidableEq

/-- The timeout each endpoint attaches to its upstream `fetch`: only the
printer-console endpoint creates an `AbortController` and arms
`setTimeout(() => controller.abort(), 8000)`; the other three call `fetch`
with no signal and no timer. -/
def upstreamTimeoutMs : ProxyEndpoint → Option ℕ
  | .printerConsole => some 8000
  | .printerOverview => none
  | .printerControl => none
  | .printerMacros => none

/-- The `{ok:false, error}` failure envelope the proxy catch blocks build. -/
structure FailEnvelope where
  ok : Bool
  error : String
deriving DecidableEq

/-- The body built by the printer-console catch block. -/
def consoleFailureBody (message : String) : FailEnvelope :=
  { ok := false, error := "Moonraker request failed: " ++ message }

/-- The HTTP status chosen by the printer-console catch block: 504 when the
error message mentions the abort, 502 otherwise. -/
def consoleFailureStatus (message : String) : ℕ :=
  if containsSub message "aborted" then 504 else 502

/-- The body and status built by the printer-overview catch block (no abort
distinction: always 502). -/
def overviewFailure (message : String) : FailEnvelope × ℕ :=
  ({ ok := false, error := "Moonraker request failed: " ++ message }, 502)

/-- The body and status built by the printer-control catch block. -/
def controlFailure (message : String) : FailEnvelope × ℕ :=
  ({ ok := false, error := "Fallo al contactar Moonraker: " ++ message }, 502)

/-- The body and status built by the printer-macros catch block. -/
def macrosFailure (message : String) : FailEnvelope × ℕ :=
  ({ ok := false, error := "Moonraker request failed: " ++ message }, 502)

/-! ### Store reachability and the returned-snapshot invariant -/

/-- The store states reachable by any sequence of store operations, starting
from an arbitrary disk file and an empty cache. -/
inductive Reach : Store → Prop where
  | init (d : Disk) : Reach { disk := d, cache := none }
  | getSnap {st : Store} (df : Option Defaults) (nid pid : String) (t : ℚ) :
      Reach st → Reach (getSnapshot df nid pid t st).2
  | register {st : Store} (input : RegisterInput) (nid pid : String) (t : ℚ) :
      Reach st → Reach (registerPrinter input nid pid t st).2
  | rmPrinter {st : Store} (printerId : String) (t : ℚ) :
      Reach st → Reach (removePrinter printerId t st).2
  | rmNode {st : Store} (nodeId : String) (t : ℚ) :
      Reach st → Reach (removeNode nodeId t st).2
  | upsert {st : Store} (entries : List (String × JEntry RawState)) (t : ℚ) :
      Reach st → Reach (upsertPrinterStates entries t st).2
  | clear {st : Store} : Reach st → Reach (clearCache st)

/-- Every snapshot sitting in the cache satisfies the sanitization
invariant. -/
def CacheInv (st : Store) : Prop :=
  ∀ c, st.cache = some c → snapInv c.snapshot = true

/-! ### The specification's stored-state validation (for comparison) -/

/-- The `StoredPrinterState` validation as the specification's data model
words it: `label` a non-empty string, `variant` one of the fixed enumeration
printing/idle/paused/complete/error/unknown, `progress` null or a number in
`[0, 100]`, `error` null or a string, `updatedAt` null or a number,
`message` null or a string.  Written from the spec to compare with the
code's `isValidState`. -/
def specValidState : JEntry RawState → Bool
  | .obj state =>
      isNonEmptyStr state.label &&
      (match state.variant with
        | .str v => ["printing", "idle", "paused", "complete", "error", "unknown"].contains v
        | _ => false) &&
      (match state.progress with
        | .null => true
        | .num (.fin q) => decide (0 ≤ q) && decide (q ≤ 100)
        | _ => false) &&
      isNullOrStr state.error && isNullOrNum state.updatedAt && isNullOrStr state.message
  | _ => false

/-! ### Stored-id projections and concrete inputs used by counterexamples -/

/-- The id strings of the node entries of a stored array (ids of non-object
or id-less entries contribute nothing). -/
def rawNodeIds (l : List (JEntry RawNode)) : List String :=
  l.filterMap nodeIdOf

/-- The id strings of the printer entries of a stored array. -/
def rawPrinterIds (l : List (JEntry RawPrinter)) : List String :=
  l.filterMap printerIdOf

/-- A stored snapshot whose two node entries share the id "n1" and whose two
printer entries share the id "p1": every entry is individually valid. -/
def rawDupC2 : RawSnapshot :=
  { nodes :=
      some [ .obj { id := .str "n1", name := .str "Nodo A", createdAt := .num (.fin 0) }
           , .obj { id := .str "n1", name := .str "Nodo B", createdAt := .num (.fin 0) } ]
    printers :=
      some [ .obj { id := .str "p1", name := .str "Impresora A", baseUrl := .str "http://a"
                    nodeId := .str "n1", createdAt := .num (.fin 0) }
           , .obj { id := .str "p1", name := .str "Impresora B", baseUrl := .str "http://b"
                    nodeId := .str "n1", createdAt := .num (.fin 0) } ]
    states := .absent
    updatedAt := .num (.fin 0) }

/-- A stored snapshot with one valid node "n1" and one valid printer "p1". -/
def rawOnePrinterC3 : RawSnapshot :=
  { nodes := some [.obj { id := .str "n1", name := .str "Nodo", createdAt := .num (.fin 0) }]
    printers :=
      some [.obj { id := .str "p1", name := .str "Impresora", baseUrl := .str "http://x"
                   nodeId := .str "n1", createdAt := .num (.fin 0) }]
    states := .absent
    updatedAt := .num (.fin 0) }

/-- A state value that passes the code's `isValidState` but violates the
specification's data model: the variant "bogus" is outside the fixed
enumeration and the progress 500 is outside `[0, 100]`. -/
def bogusStateC3 : JEntry RawState :=
  .obj { label := .str "X", variant := .str "bogus", progress := .num (.fin 500)
         error := .null, updatedAt := .null, message := .null }

/-! ### Association-list lemmas -/

theorem keysOf_setEntry {α : Type} (l : List (String × α)) (k : String) (v : α) :
    keysOf (setEntry l k v) =
      if l.any (fun e => e.1 = k) then keysOf l else keysOf l ++ [k] := by
  unfold setEntry keysOf
  split
  · simp only [List.map_map]
    refine congrArg₂ _ (funext fun e => ?_) rfl
    by_cases he : e.1 = k
    · simp [he]
    · simp [he]
  · simp

theorem mem_keysOf_setEntry {α : Type} {l : List (String × α)} {k k' : String} {v : α}
    (h : k' ∈ keysOf (setEntry l k v)) : k' ∈ keysOf l ∨ k' = k := by
  rw [keysOf_setEntry] at h
  split at h
  · exact Or.inl h
  · rcases List.mem_append.1 h with h' | h'
    · exact Or.inl h'
    · exact Or.inr (List.mem_singleton.1 h')

theorem mem_setEntry {α : Type} {l : List (String × α)} {k : String} {v : α} {e : String × α}
    (h : e ∈ setEntry l k v) : e ∈ l ∨ e = (k, v) := by
  unfold setEntry at h
  split at h
  · rcases List.mem_map.1 h with ⟨e', he', hmap⟩
    by_cases hk : e'.1 = k
    · right
      rw [← hmap]
      simp [hk]
    · left
      rw [← hmap]
      simpa [hk] using he'
  · rcases List.mem_append.1 h with h' | h'
    · exact Or.inl h'
    · exact Or.inr (List.mem_singleton.1 h')

theorem setEntry_ne_nil {α : Type} (l : List (String × α)) (k : String) (v : α) :
    setEntry l k v ≠ [] := by
  unfold setEntry
  split
  · intro hma
    rcases List.map_eq_nil_iff.1 hma with rfl
    simp_all
  · simp

theorem nodupKeys_setEntry {α : Type} {l : List (String × α)} (k : String) (v : α)
    (h : (keysOf l).Nodup) : (keysOf (setEntry l k v)).Nodup := by
  rw [keysOf_setEntry]
  split
  · exact h
  · rename_i hany
    refine List.Nodup.append h (List.nodup_singleton k) ?_
    intro x hx hxk
    rw [List.mem_singleton] at hxk
    subst hxk
    rcases List.mem_map.1 hx with ⟨e, he, hek⟩
    have hfalse := List.any_eq_false.1 (Bool.eq_false_iff.2 hany) e he
    simp [hek] at hfalse

theorem all_setEntry {α : Type} {P : String × α → Bool} {l : List (String × α)} {k : String}
    {v : α} (hl : ∀ e ∈ l, P e = true) (hv : P (k, v) = true) :
    ∀ e ∈ setEntry l k v, P e = true := by
  intro e he
  rcases mem_setEntry he with h | rfl
  · exact hl e h
  · exact hv

theorem foldl_setEntry_mem {α : Type} {entries : List (String × α)} :
    ∀ {acc : List (String × α)} {e : String × α},
      e ∈ entries.foldl (fun a x => setEntry a x.1 x.2) acc → e ∈ acc ∨ e ∈ entries := by
  induction entries with
  | nil =>
      intro acc e h
      exact Or.inl h
  | cons x rest ih =>
      intro acc e h
      rcases ih h with h' | h'
      · rcases mem_setEntry h' with h'' | rfl
        · exact Or.inl h''
        · right
          simp
      · right
        exact List.mem_cons_of_mem x h'

theorem foldl_setEntry_nodupKeys {α : Type} {entries : List (String × α)} :
    ∀ {acc : List (String × α)}, (keysOf acc).Nodup →
      (keysOf (entries.foldl (fun a x => setEntry a x.1 x.2) acc)).Nodup := by
  induction entries with
  | nil =>
      intro acc h
      exact h
  | cons x rest ih =>
      intro acc h
      exact ih (nodupKeys_setEntry x.1 x.2 h)

theorem foldl_setEntry_ne_nil {α : Type} {entries : List (String × α)} :
    ∀ {acc : List (String × α)}, acc ≠ [] →
      entries.foldl (fun a x => setEntry a x.1 x.2) acc ≠ [] := by
  induction entries with
  | nil =>
      intro acc h
      exact h
  | cons x rest ih =>
      intro acc _
      exact ih (setEntry_ne_nil acc x.1 x.2)

theorem mem_keysOf_fromEntries {α : Type} {l : List (String × α)} {k : String}
    (h : k ∈ keysOf (fromEntries l)) : k ∈ keysOf l := by
  unfold fromEntries at h
  have aux : ∀ (entries acc : List (String × α)) (k : String),
      k ∈ keysOf (entries.foldl (fun a e => setEntry a e.1 e.2) acc) →
      k ∈ keysOf acc ∨ k ∈ keysOf entries := by
    intro entries
    induction entries with
    | nil =>
        intro acc k h
        exact Or.inl h
    | cons x rest ih =>
        intro acc k h
        rcases ih _ _ h with h' | h'
        · rcases mem_keysOf_setEntry h' with h'' | rfl
          · exact Or.inl h''
          · right
            unfold keysOf
            simp
        · right
          unfold keysOf at h' ⊢
          simpa using Or.inr (by simpa [keysOf] using h')
  rcases aux l [] k h with h' | h'
  · simp [keysOf] at h'
  · exact h'

theorem nodupKeys_fromEntries {α : Type} (l : List (String × α)) :
    (keysOf (fromEntries l)).Nodup :=
  foldl_setEntry_nodupKeys (by simp [keysOf])

theorem mem_fromEntries {α : Type} {l : List (String × α)} {e : String × α}
    (h : e ∈ fromEntries l) : e ∈ l := by
  rcases foldl_setEntry_mem h with h' | h'
  · simp at h'
  · exact h'

theorem fromEntries_ne_nil {α : Type} {l : List (String × α)} (h : l ≠ []) :
    fromEntries l ≠ [] := by
  unfold fromEntries
  match l, h with
  | x :: rest, _ =>
      simp only [List.foldl_cons]
      exact foldl_setEntry_ne_nil (setEntry_ne_nil [] x.1 x.2)

theorem setEntry_of_not_mem {α : Type} {l : List (String × α)} {k : String} (v : α)
    (h : k ∉ keysOf l) : setEntry l k v = l ++ [(k, v)] := by
  unfold setEntry
  have : l.any (fun e => e.1 = k) = false := by
    rw [List.any_eq_false]
    intro e he
    simp only [decide_eq_true_eq]
    intro hk
    exact h (List.mem_map.2 ⟨e, he, hk⟩)
  simp [this]

theorem fromEntries_eq_self {α : Type} {l : List (String × α)}
    (h : (keysOf l).Nodup) : fromEntries l = l := by
  unfold fromEntries
  have aux : ∀ (entries acc : List (String × α)), (keysOf (acc ++ entries)).Nodup →
      entries.foldl (fun a e => setEntry a e.1 e.2) acc = acc ++ entries := by
    intro entries
    induction entries with
    | nil =>
        intro acc _
        simp
    | cons x rest ih =>
        intro acc hnd
        have hx : x.1 ∉ keysOf acc := by
          intro hmem
          have : (keysOf (acc ++ x :: rest)).Nodup := hnd
          rw [keysOf, List.map_append] at this
          have hd := (List.nodup_append.1 this).2.2
          exact hd hmem (by simp [keysOf])
        rw [List.foldl_cons, setEntry_of_not_mem x.2 hx]
        have := ih (acc ++ [x]) (by simpa using hnd)
        simpa using this
  simpa using aux l [] (by simpa using h)

/-! ### Sanitization lemmas -/

theorem sanitizeParts_nodes (ns : List (JEntry RawNode)) (ps : List (JEntry RawPrinter))
    (ss : Option (List (String × JEntry RawState))) (u : JField) (t : ℚ) :
    (sanitizeParts ns ps ss u t).nodes = ns.filter isValidNode := rfl

theorem sanitizeParts_printers (ns : List (JEntry RawNode)) (ps : List (JEntry RawPrinter))
    (ss : Option (List (String × JEntry RawState))) (u : JField) (t : ℚ) :
    (sanitizeParts ns ps ss u t).printers =
      ps.filter (isValidPrinter ((ns.filter isValidNode).filterMap nodeIdOf)) := rfl

theorem snapshotNodeIds_sanitizeParts (ns : List (JEntry RawNode))
    (ps : List (JEntry RawPrinter)) (ss : Option (List (String × JEntry RawState)))
    (u : JField) (t : ℚ) :
    snapshotNodeIds (sanitizeParts ns ps ss u t) =
      (ns.filter isValidNode).filterMap nodeIdOf := rfl

theorem snapshotPrinterIds_sanitizeParts (ns : List (JEntry RawNode))
    (ps : List (JEntry RawPrinter)) (ss : Option (List (String × JEntry RawState)))
    (u : JField) (t : ℚ) :
    snapshotPrinterIds (sanitizeParts ns ps ss u t) =
      (ps.filter (isValidPrinter ((ns.filter isValidNode).filterMap nodeIdOf))).filterMap
        printerIdOf := rfl

theorem sanitizeParts_states (ns : List (JEntry RawNode)) (ps : List (JEntry RawPrinter))
    (ss : Option (List (String × JEntry RawState))) (u : JField) (t : ℚ) :
    (sanitizeParts ns ps ss u t).states =
      (let validStates := (ss.getD []).filter (fun e =>
        (snapshotPrinterIds (sanitizeParts ns ps ss u t)).contains e.1 && isValidState e.2)
       if validStates.length > 0 then some (fromEntries validStates) else none) := rfl

theorem sanitizeParts_updatedAt (ns : List (JEntry RawNode)) (ps : List (JEntry RawPrinter))
    (ss : Option (List (String × JEntry RawState))) (u : JField) (t : ℚ) :
    (sanitizeParts ns ps ss u t).updatedAt =
      (match u with | .num n => n | _ => .fin t) := rfl

theorem isValidPrinter_refOk {ids : List String} {e : JEntry RawPrinter}
    (h : isValidPrinter ids e = true) : printerRefOk ids e = true := by
  cases e with
  | falsyVal => simp [isValidPrinter] at h
  | truthyNonObj => simp [isValidPrinter] at h
  | obj printer =>
      simp only [isValidPrinter, Bool.and_eq_true] at h
      simpa [printerRefOk] using h.1.2

theorem stateKeys_sanitizeParts_sub (ns : List (JEntry RawNode))
    (ps : List (JEntry RawPrinter)) (ss : Option (List (String × JEntry RawState)))
    (u : JField) (t : ℚ) {k : String}
    (hk : k ∈ stateKeys (sanitizeParts ns ps ss u t)) :
    (snapshotPrinterIds (sanitizeParts ns ps ss u t)).contains k = true := by
  unfold stateKeys at hk
  rw [sanitizeParts_states] at hk
  simp only at hk
  split at hk
  · rename_i hpos
    rw [Option.getD_some] at hk
    have hk' := mem_keysOf_fromEntries hk
    rcases List.mem_map.1 hk' with ⟨e, he, rfl⟩
    have hcond := (List.mem_filter.1 he).2
    rw [Bool.and_eq_true] at hcond
    exact hcond.1
  · simp [keysOf] at hk

theorem snapInv_sanitizeParts (ns : List (JEntry RawNode)) (ps : List (JEntry RawPrinter))
    (ss : Option (List (String × JEntry RawState))) (u : JField) (t : ℚ) :
    snapInv (sanitizeParts ns ps ss u t) = true := by
  unfold snapInv
  rw [Bool.and_eq_true]
  constructor
  · rw [List.all_eq_true]
    intro e he
    rw [sanitizeParts_printers] at he
    have hvalid := (List.mem_filter.1 he).2
    rw [snapshotNodeIds_sanitizeParts]
    exact isValidPrinter_refOk hvalid
  · rw [List.all_eq_true]
    intro k hk
    exact stateKeys_sanitizeParts_sub ns ps ss u t hk

theorem isValidPrinter_nil (e : JEntry RawPrinter) : isValidPrinter [] e = false := by
  cases e with
  | falsyVal => rfl
  | truthyNonObj => rfl
  | obj printer =>
      simp only [isValidPrinter]
      cases printer.nodeId <;> simp

theorem sanitizeParts_printers_nil_of_nodes_nil (ns : List (JEntry RawNode))
    (ps : List (JEntry RawPrinter)) (ss : Option (List (String × JEntry RawState)))
    (u : JField) (t : ℚ) (h : (sanitizeParts ns ps ss u t).nodes = []) :
    (sanitizeParts ns ps ss u t).printers = [] := by
  rw [sanitizeParts_nodes] at h
  rw [sanitizeParts_printers, h]
  simp only [List.filterMap_nil]
  rw [List.filter_eq_nil_iff]
  intro e _
  rw [isValidPrinter_nil]
  simp

theorem sanitizeParts_states_none_of_printers_nil (ns : List (JEntry RawNode))
    (ps : List (JEntry RawPrinter)) (ss : Option (List (String × JEntry RawState)))
    (u : JField) (t : ℚ) (h : (sanitizeParts ns ps ss u t).printers = []) :
    (sanitizeParts ns ps ss u t).states = none := by
  rw [sanitizeParts_states]
  simp only
  have hids : snapshotPrinterIds (sanitizeParts ns ps ss u t) = [] := by
    unfold snapshotPrinterIds
    rw [h, List.filterMap_nil]
  rw [hids]
  have hempty : (ss.getD []).filter
      (fun e => ([] : List String).contains e.1 && isValidState e.2) = [] := by
    rw [List.filter_eq_nil_iff]
    intro e _
    simp [List.contains]
  rw [hempty]
  simp

/-! ### Read-path lemmas -/

theorem snapInv_emptySnapshot (t : ℚ) : snapInv (emptySnapshot t) = true := rfl

theorem snapInv_readSnapshotFromDisk (d : Disk) (t : ℚ) :
    snapInv (readSnapshotFromDisk d t) = true := by
  cases d with
  | missing => rfl
  | corrupt => rfl
  | stored raw =>
      cases raw with
      | none => exact snapInv_sanitizeParts _ _ _ _ _
      | some r => exact snapInv_sanitizeParts _ _ _ _ _

theorem read_printers_nil_of_nodes_nil (d : Disk) (t : ℚ)
    (h : (readSnapshotFromDisk d t).nodes = []) :
    (readSnapshotFromDisk d t).printers = [] := by
  cases d with
  | missing => rfl
  | corrupt => rfl
  | stored raw =>
      cases raw with
      | none => exact sanitizeParts_printers_nil_of_nodes_nil _ _ _ _ _ h
      | some r => exact sanitizeParts_printers_nil_of_nodes_nil _ _ _ _ _ h

theorem read_states_none_of_printers_nil (d : Disk) (t : ℚ)
    (h : (readSnapshotFromDisk d t).printers = []) :
    (readSnapshotFromDisk d t).states = none := by
  cases d with
  | missing => rfl
  | corrupt => rfl
  | stored raw =>
      cases raw with
      | none => exact sanitizeParts_states_none_of_printers_nil _ _ _ _ _ h
      | some r => exact sanitizeParts_states_none_of_printers_nil _ _ _ _ _ h

theorem snapInv_set_updatedAt (s : Snapshot) (x : JNum) :
    snapInv { s with updatedAt := x } = snapInv s := rfl

theorem snapInv_sanitizeOfSnapshot (s : Snapshot) (t : ℚ) :
    snapInv (sanitizeOfSnapshot s t) = true :=
  snapInv_sanitizeParts _ _ _ _ _

theorem updateSnapshot_cases (m : Snapshot → Except String Snapshot) (t : ℚ) (st : Store) :
    (∃ e, m (readSnapshotFromDisk st.disk t) = .error e ∧
      updateSnapshot m t st = (.error e, st)) ∨
    (∃ n0, m (readSnapshotFromDisk st.disk t) = .ok n0 ∧
      updateSnapshot m t st =
        (.ok { sanitizeOfSnapshot n0 t with updatedAt := .fin t },
         writeSnapshotToDisk { sanitizeOfSnapshot n0 t with updatedAt := .fin t } t st)) := by
  unfold updateSnapshot
  dsimp only
  cases hm : m (readSnapshotFromDisk st.disk t) with
  | error e =>
      left
      exact ⟨e, rfl, rfl⟩
  | ok n0 =>
      right
      exact ⟨n0, rfl, rfl⟩

theorem updateSnapshot_ok_snapInv {m : Snapshot → Except String Snapshot} {t : ℚ}
    {st : Store} {s : Snapshot} (h : (updateSnapshot m t st).1 = .ok s) :
    snapInv s = true := by
  rcases updateSnapshot_cases m t st with ⟨e, _, heq⟩ | ⟨n0, _, heq⟩
  · rw [heq] at h
    simp at h
  · rw [heq] at h
    simp only [Except.ok.injEq] at h
    rw [← h, snapInv_set_updatedAt]
    exact snapInv_sanitizeOfSnapshot n0 t

theorem snapInv_maybeSeedDefaults (d : Disk) (df : Option Defaults) (nid pid : String)
    (t : ℚ) (st : Store) :
    snapInv (maybeSeedDefaults (readSnapshotFromDisk d t) df nid pid t st).1 = true := by
  unfold maybeSeedDefaults
  dsimp only
  split
  · exact snapInv_readSnapshotFromDisk d t
  · rename_i hcond
    split
    · exact snapInv_readSnapshotFromDisk d t
    · have hprinters : (readSnapshotFromDisk d t).printers = [] := by
        have hcond' : (readSnapshotFromDisk d t).nodes.length = 0 ∨
            (readSnapshotFromDisk d t).printers.length = 0 := by
          by_contra hboth
          push_neg at hboth
          apply hcond
          simp [Nat.pos_of_ne_zero hboth.1, Nat.pos_of_ne_zero hboth.2]
        rcases hcond' with h0 | h0
        · exact read_printers_nil_of_nodes_nil d t (List.length_eq_zero.1 h0)
        · exact List.length_eq_zero.1 h0
      have hstates : (readSnapshotFromDisk d t).states = none :=
        read_states_none_of_printers_nil d t hprinters
      simp only [hstates]
      simp [snapInv, printerRefOk, snapshotNodeIds, snapshotPrinterIds, stateKeys,
        keysOf, nodeIdOf]

theorem cacheInv_updateSnapshot (m : Snapshot → Except String Snapshot) (t : ℚ)
    (st : Store) (ih : CacheInv st) : CacheInv (updateSnapshot m t st).2 := by
  rcases updateSnapshot_cases m t st with ⟨e, _, heq⟩ | ⟨n0, _, heq⟩
  · rw [heq]
    exact ih
  · rw [heq]
    intro c hc
    simp only [writeSnapshotToDisk, Option.some.injEq] at hc
    rw [← hc]
    rw [snapInv_set_updatedAt]
    exact snapInv_sanitizeOfSnapshot n0 t

theorem snapInv_getSnapshot_fst (df : Option Defaults) (nid pid : String) (t : ℚ)
    (st : Store) (hc : CacheInv st) : snapInv (getSnapshot df nid pid t st).1 = true := by
  unfold getSnapshot
  cases hcache : st.cache with
  | some c =>
      dsimp only
      split
      · exact hc c hcache
      · exact snapInv_maybeSeedDefaults st.disk df nid pid t st
  | none =>
      dsimp only
      exact snapInv_maybeSeedDefaults st.disk df nid pid t st

theorem cacheInv_getSnapshot (df : Option Defaults) (nid pid : String) (t : ℚ)
    (st : Store) (ih : CacheInv st) : CacheInv (getSnapshot df nid pid t st).2 := by
  unfold getSnapshot
  cases hcache : st.cache with
  | some c =>
      dsimp only
      split
      · exact ih
      · intro c' hc'
        simp only [Option.some.injEq] at hc'
        rw [← hc']
        exact snapInv_maybeSeedDefaults st.disk df nid pid t st
  | none =>
      dsimp only
      intro c' hc'
      simp only [Option.some.injEq] at hc'
      rw [← hc']
      exact snapInv_maybeSeedDefaults st.disk df nid pid t st

theorem reach_cacheInv {st : Store} (h : Reach st) : CacheInv st := by
  induction h with
  | init d =>
      intro c hc
      simp at hc
  | getSnap df nid pid t hr ih =>
      exact cacheInv_getSnapshot df nid pid t _ ih
  | register input nid pid t hr ih =>
      unfold registerPrinter
      dsimp only
      split
      · exact ih
      · split
        · exact ih
        · exact cacheInv_updateSnapshot _ t _ ih
  | rmPrinter printerId t hr ih =>
      unfold removePrinter
      dsimp only
      split
      · exact ih
      · exact cacheInv_updateSnapshot _ t _ ih
  | rmNode nodeId t hr ih =>
      unfold removeNode
      split
      · exact ih
      · exact cacheInv_updateSnapshot _ t _ ih
  | upsert entries t hr ih =>
      exact cacheInv_updateSnapshot _ t _ ih
  | clear hr ih =>
      intro c hc
      simp [clearCache] at hc

theorem registerPrinter_ok_snapInv {input : RegisterInput} {nid pid : String} {t : ℚ}
    {st : Store} {s : Snapshot} (h : (registerPrinter input nid pid t st).1 = .ok s) :
    snapInv s = true := by
  unfold registerPrinter at h
  dsimp only at h
  split at h
  · simp at h
  · split at h
    · simp at h
    · exact updateSnapshot_ok_snapInv h

theorem removePrinter_ok_snapInv {printerId : String} {t : ℚ} {st : Store} {s : Snapshot}
    (h : (removePrinter printerId t st).1 = .ok s) : snapInv s = true := by
  unfold removePrinter at h
  split at h
  · simp at h
  · exact updateSnapshot_ok_snapInv h

theorem removeNode_ok_snapInv {nodeId : String} {t : ℚ} {st : Store} {s : Snapshot}
    (h : (removeNode nodeId t st).1 = .ok s) : snapInv s = true := by
  unfold removeNode at h
  split at h
  · simp at h
  · exact updateSnapshot_ok_snapInv h

/-- C1: for every snapshot returned by any snapshot-store operation
(`getSnapshot`, `registerPrinter`, `removePrinter`, `removeNode`,
`upsertPrinterStates`) from any reachable store state, every printer's
`nodeId` equals the id of some node present in the same snapshot, and every
key of the states map equals the id of some printer present in the same
snapshot. -/
theorem C1_store_sanitization_invariant :
    ∀ st : Store, Reach st →
      (∀ df nid pid t, snapInv (getSnapshot df nid pid t st).1 = true) ∧
      (∀ input nid pid t s, (registerPrinter input nid pid t st).1 = .ok s →
        snapInv s = true) ∧
      (∀ printerId t s, (removePrinter printerId t st).1 = .ok s → snapInv s = true) ∧
      (∀ nodeId t s, (removeNode nodeId t st).1 = .ok s → snapInv s = true) ∧
      (∀ entries t s, (upsertPrinterStates entries t st).1 = .ok s → snapInv s = true) := by
  intro st hreach
  refine ⟨?_, ?_, ?_, ?_, ?_⟩
  · intro df nid pid t
    exact snapInv_getSnapshot_fst df nid pid t st (reach_cacheInv hreach)
  · intro input nid pid t s h
    exact registerPrinter_ok_snapInv h
  · intro printerId t s h
    exact removePrinter_ok_snapInv h
  · intro nodeId t s h
    exact removeNode_ok_snapInv h
  · intro entries t s h
    exact updateSnapshot_ok_snapInv h

/-- Witness for C1 at a concrete reachable store: the initial store over a
missing file, queried by `getSnapshot`. -/
theorem C1_store_sanitization_invariant_witness :
    snapInv (getSnapshot none "node-a" "printer-a" 0
      { disk := Disk.missing, cache := none }).1 = true :=
  (C1_store_sanitization_invariant _ (Reach.init Disk.missing)).1 none "node-a" "printer-a" 0

/-! ### Seeding and read-path helper lemmas -/

theorem maybeSeedDefaults_none (s : Snapshot) (nid pid : String) (t : ℚ) (st : Store) :
    maybeSeedDefaults s none nid pid t st = (s, st) := by
  unfold maybeSeedDefaults
  dsimp only
  split
  · rfl
  · rfl

theorem maybeSeedDefaults_fst_congr (s : Snapshot) (df : Option Defaults)
    (nid pid : String) (t : ℚ) (st1 st2 : Store) :
    (maybeSeedDefaults s df nid pid t st1).1 = (maybeSeedDefaults s df nid pid t st2).1 := by
  unfold maybeSeedDefaults
  dsimp only
  split
  · rfl
  · split
    · rfl
    · rfl

theorem getSnapshot_none_fst (d : Disk) (nid pid : String) (t : ℚ) :
    (getSnapshot none nid pid t { disk := d, cache := none }).1 =
      readSnapshotFromDisk d t := by
  unfold getSnapshot
  dsimp only
  rw [maybeSeedDefaults_none]

/-- C9: `getSnapshot` never propagates a storage read error: a missing store
file reads as the empty snapshot, any other read failure (corruption, parse
error) also reads as the empty snapshot (the read path is total: its return
type has no error case), the snapshot `getSnapshot` returns is the same for a
missing and an unreadable file, and with no seeding defaults the returned
snapshot is exactly the empty one. -/
theorem C9_read_errors_degrade_to_empty :
    ∀ (t : ℚ) (c : Option SnapshotCache) (df : Option Defaults) (nid pid : String),
      readSnapshotFromDisk Disk.missing t = emptySnapshot t ∧
      readSnapshotFromDisk Disk.corrupt t = emptySnapshot t ∧
      (getSnapshot df nid pid t { disk := Disk.missing, cache := c }).1 =
        (getSnapshot df nid pid t { disk := Disk.corrupt, cache := c }).1 ∧
      (df.bind (·.baseUrl) = none →
        (getSnapshot df nid pid t { disk := Disk.missing, cache := none }).1 =
          emptySnapshot t) := by
  intro t c df nid pid
  refine ⟨rfl, rfl, ?_, ?_⟩
  · unfold getSnapshot
    cases c with
    | some cc =>
        dsimp only
        split
        · rfl
        · exact maybeSeedDefaults_fst_congr (emptySnapshot t) df nid pid t _ _
    | none =>
        dsimp only
        exact maybeSeedDefaults_fst_congr (emptySnapshot t) df nid pid t _ _
  · intro hdf
    unfold getSnapshot
    dsimp only
    unfold maybeSeedDefaults
    dsimp only
    rw [hdf]
    split
    · rfl
    · rfl

/-- Witness for C9 at concrete inputs. -/
theorem C9_read_errors_degrade_to_empty_witness :
    (getSnapshot (some { baseUrl := none, printerName := none }) "n" "p" 3
      { disk := Disk.missing, cache := none }).1 = emptySnapshot 3 :=
  (C9_read_errors_degrade_to_empty 3 none (some { baseUrl := none, printerName := none })
    "n" "p").2.2.2 rfl

/-- C10: when the stored snapshot sanitizes to at least one node but zero
printers and `getSnapshot` is called with a (non-empty) `defaults.baseUrl`
and a cold cache, the seeded snapshot that is persisted and returned holds
exactly one node - the default "Nodo principal" - and one printer; every
pre-existing node is discarded by seeding rather than preserved alongside
the default node. -/
theorem C10_seeding_discards_preexisting_nodes :
    ∀ (raw : RawSnapshot) (t : ℚ) (nid pid u : String) (pn : Option String),
      (readSnapshotFromDisk (.stored (some raw)) t).nodes ≠ [] →
      (readSnapshotFromDisk (.stored (some raw)) t).printers = [] →
      u.isEmpty = false →
      getSnapshot (some { baseUrl := some u, printerName := pn }) nid pid t
          { disk := .stored (some raw), cache := none } =
        (let printerName :=
          if (jsTrim (pn.getD "")).isEmpty then "Impresora principal" else jsTrim (pn.getD "")
         let seeded : Snapshot :=
          { nodes := [.obj { id := .str nid, name := .str "Nodo principal"
                             createdAt := .num (.fin t) }]
            printers := [.obj { id := .str pid, name := .str printerName
                                baseUrl := .str u, nodeId := .str nid
                                createdAt := .num (.fin t) }]
            states := none
            updatedAt := .fin t }
         (seeded, { disk := .stored (some (rawOfSnapshot seeded))
                    cache := some { snapshot := seeded, expiresAt := t + 5000 } })) := by
  intro raw t nid pid u pn hnodes hprinters hu
  have hstates : (readSnapshotFromDisk (.stored (some raw)) t).states = none :=
    read_states_none_of_printers_nil _ t hprinters
  unfold getSnapshot
  dsimp only
  unfold maybeSeedDefaults
  dsimp only
  rw [hprinters]
  have hcond : ((readSnapshotFromDisk (.stored (some raw)) t).nodes.length > 0 &&
      ([] : List (JEntry RawPrinter)).length > 0) = false := by
    simp
  rw [hcond]
  simp only [Bool.false_eq_true, if_false]
  have htruthy : (!optStrTruthy ((some (Defaults.mk (some u) pn)).bind (·.baseUrl))) = false := by
    simp [optStrTruthy, hu]
  rw [htruthy]
  simp only [Bool.false_eq_true, if_false]
  rw [hstates]
  rfl

/-- Witness for C10: a stored file holding one valid node and no printers,
seeded with base URL "http://10.0.0.5" and printer name "Voron".  The result
holds exactly the fresh "Nodo principal" node and the "Voron" printer. -/
theorem C10_seeding_discards_preexisting_nodes_witness :
    getSnapshot (some ⟨some "http://10.0.0.5", some "Voron"⟩) "gn" "gp" 9
        ⟨.stored (some ⟨some [.obj ⟨.str "n1", .str "Nodo", .num (.fin 0)⟩],
          some [], .absent, .num (.fin 0)⟩), none⟩ =
      (⟨[.obj ⟨.str "gn", .str "Nodo principal", .num (.fin 9)⟩],
        [.obj ⟨.str "gp", .str "Voron", .str "http://10.0.0.5", .str "gn", .num (.fin 9)⟩],
        none, .fin 9⟩,
       ⟨.stored (some (rawOfSnapshot
          ⟨[.obj ⟨.str "gn", .str "Nodo principal", .num (.fin 9)⟩],
           [.obj ⟨.str "gp", .str "Voron", .str "http://10.0.0.5", .str "gn", .num (.fin 9)⟩],
           none, .fin 9⟩)),
        some ⟨⟨[.obj ⟨.str "gn", .str "Nodo principal", .num (.fin 9)⟩],
          [.obj ⟨.str "gp", .str "Voron", .str "http://10.0.0.5", .str "gn", .num (.fin 9)⟩],
          none, .fin 9⟩, 9 + 5000⟩⟩) := by
  have h := C10_seeding_discards_preexisting_nodes
    ⟨some [.obj ⟨.str "n1", .str "Nodo", .num (.fin 0)⟩], some [], .absent, .num (.fin 0)⟩
    9 "gn" "gp" "http://10.0.0.5" (some "Voron")
    (by decide) (by decide) (by decide)
  simpa using h

/-- C2 counterexample: a stored snapshot whose node entries duplicate the id
"n1" and whose printer entries duplicate the id "p1" is returned by
`getSnapshot` with the duplicate ids intact - the ids of the returned
snapshot's nodes and printers are not pairwise distinct, contradicting the
claim that uniqueness is enforced on every read even when the underlying
stored data contains duplicate ids. -/
theorem C2_counterexample_duplicate_ids_survive :
    snapshotNodeIds (getSnapshot none "g1" "g2" 7
        { disk := .stored (some rawDupC2), cache := none }).1 = ["n1", "n1"] ∧
    ¬ (snapshotNodeIds (getSnapshot none "g1" "g2" 7
        { disk := .stored (some rawDupC2), cache := none }).1).Nodup ∧
    ¬ (snapshotPrinterIds (getSnapshot none "g1" "g2" 7
        { disk := .stored (some rawDupC2), cache := none }).1).Nodup := by
  refine ⟨by decide, by decide, by decide⟩

/-- C2 amended: sanitization filters entries but never deduplicates ids, so
the ids of the nodes (resp. printers) of a snapshot read back through
`getSnapshot` are pairwise distinct provided the ids of the stored node
(resp. printer) entries are pairwise distinct; duplicate stored ids are
preserved, not collapsed. -/
theorem C2_amended_ids_nodup_when_stored_nodup :
    ∀ (raw : RawSnapshot) (t : ℚ) (nid pid : String),
      ((rawNodeIds (raw.nodes.getD [])).Nodup →
        (snapshotNodeIds (getSnapshot none nid pid t
          { disk := .stored (some raw), cache := none }).1).Nodup) ∧
      ((rawPrinterIds (raw.printers.getD [])).Nodup →
        (snapshotPrinterIds (getSnapshot none nid pid t
          { disk := .stored (some raw), cache := none }).1).Nodup) := by
  intro raw t nid pid
  rw [getSnapshot_none_fst]
  constructor
  · intro h
    have hsub : (snapshotNodeIds (readSnapshotFromDisk (.stored (some raw)) t)).Sublist
        (rawNodeIds (raw.nodes.getD [])) := by
      rw [readSnapshotFromDisk]
      rw [sanitizeSnapshot]
      rw [snapshotNodeIds_sanitizeParts]
      exact List.Sublist.filterMap nodeIdOf (List.filter_sublist _)
    exact h.sublist hsub
  · intro h
    have hsub : (snapshotPrinterIds (readSnapshotFromDisk (.stored (some raw)) t)).Sublist
        (rawPrinterIds (raw.printers.getD [])) := by
      rw [readSnapshotFromDisk]
      rw [sanitizeSnapshot]
      rw [snapshotPrinterIds_sanitizeParts]
      exact List.Sublist.filterMap printerIdOf (List.filter_sublist _)
    exact h.sublist hsub

/-- Witness for the amended C2 at a duplicate-free stored snapshot. -/
theorem C2_amended_ids_nodup_when_stored_nodup_witness :
    (snapshotNodeIds (getSnapshot none "g1" "g2" 0
      { disk := .stored (some rawOnePrinterC3), cache := none }).1).Nodup ∧
    (snapshotPrinterIds (getSnapshot none "g1" "g2" 0
      { disk := .stored (some rawOnePrinterC3), cache := none }).1).Nodup :=
  ⟨(C2_amended_ids_nodup_when_stored_nodup rawOnePrinterC3 0 "g1" "g2").1 (by decide),
   (C2_amended_ids_nodup_when_stored_nodup rawOnePrinterC3 0 "g1" "g2").2 (by decide)⟩

/-- C8: `registerPrinter` with a name that is blank after trimming fails with
the validation error naming the printer name, with a non-blank name but a
blank base URL it fails with the validation error naming the base URL, and
in both cases the store (disk file and cache alike) is returned exactly as
it was - no write happens. -/
theorem C8_register_validation_no_write :
    ∀ (input : RegisterInput) (nid pid : String) (t : ℚ) (st : Store),
      ((jsTrim input.name).isEmpty = true →
        registerPrinter input nid pid t st =
          (.error "El nombre de la impresora es obligatorio.", st)) ∧
      ((jsTrim input.name).isEmpty = false → (jsTrim input.baseUrl).isEmpty = true →
        registerPrinter input nid pid t st =
          (.error "La URL base es obligatoria.", st)) := by
  intro input nid pid t st
  constructor
  · intro h
    unfold registerPrinter
    dsimp only
    rw [h]
    simp
  · intro h1 h2
    unfold registerPrinter
    dsimp only
    rw [h1, h2]
    simp

/-- Witness for C8: registering with an all-blank name, and with a good name
but blank base URL, against a missing store file. -/
theorem C8_register_validation_no_write_witness :
    registerPrinter ⟨" ", "http://x", none, none⟩ "a" "b" 0 ⟨Disk.missing, none⟩ =
      (.error "El nombre de la impresora es obligatorio.", ⟨Disk.missing, none⟩) ∧
    registerPrinter ⟨"Imp", "  ", none, none⟩ "a" "b" 0 ⟨Disk.missing, none⟩ =
      (.error "La URL base es obligatoria.", ⟨Disk.missing, none⟩) :=
  ⟨(C8_register_validation_no_write ⟨" ", "http://x", none, none⟩ "a" "b" 0
      ⟨Disk.missing, none⟩).1 (by decide),
   (C8_register_validation_no_write ⟨"Imp", "  ", none, none⟩ "a" "b" 0
      ⟨Disk.missing, none⟩).2 (by decide) (by decide)⟩

/-- C4 counterexample: the printer-overview, printer-control and
printer-macros endpoints attach no timeout at all to their upstream fetch -
only printer-console arms the 8-second abort timer - contradicting the claim
that every proxy endpoint applies the fixed 8-second timeout. -/
theorem C4_counterexample_no_timeout_outside_console :
    upstreamTimeoutMs .printerOverview = none ∧
    upstreamTimeoutMs .printerControl = none ∧
    upstreamTimeoutMs .printerMacros = none ∧
    upstreamTimeoutMs .printerOverview ≠ some 8000 := by
  refine ⟨rfl, rfl, rfl, by decide⟩

/-- C4 amended: only the printer-console endpoint applies the fixed 8-second
upstream timeout; the other three endpoints attach none.  The console
endpoint maps a timed-out (aborted) upstream call to HTTP 504, distinct from
502 for a generic connection failure, and every endpoint's catch block
reports the failure as an `{ok:false, error}` envelope (no exception). -/
theorem C4_amended_only_console_timeout :
    upstreamTimeoutMs .printerConsole = some 8000 ∧
    upstreamTimeoutMs .printerOverview = none ∧
    upstreamTimeoutMs .printerControl = none ∧
    upstreamTimeoutMs .printerMacros = none ∧
    consoleFailureStatus "This operation was aborted" = 504 ∧
    consoleFailureStatus "fetch failed" = 502 ∧
    (∀ m, (consoleFailureBody m).ok = false ∧
      (consoleFailureBody m).error = "Moonraker request failed: " ++ m ∧
      (overviewFailure m).1.ok = false ∧ (overviewFailure m).2 = 502 ∧
      (controlFailure m).1.ok = false ∧ (macrosFailure m).1.ok = false) := by
  refine ⟨rfl, rfl, rfl, rfl, by decide, by decide, ?_⟩
  intro m
  exact ⟨rfl, rfl, rfl, rfl, rfl, rfl⟩

/-- C6 counterexample: the client-side `resolveProgress` nulls only NaN
(`Number.isNaN`), so the non-finite input Infinity is not mapped to null -
it is clamped to 100 (and -Infinity to 0), contradicting the claim that any
non-finite input yields null. -/
theorem C6_counterexample_infinity_not_null :
    resolveProgress (.num .inf) = some (.fin 100) ∧
    resolveProgress (.num .inf) ≠ none ∧
    resolveProgress (.num .ninf) = some (.fin 0) := by
  refine ⟨?_, ?_, ?_⟩
  · simp [resolveProgress, jleq, mul100, jsMin, jsMax]
  · simp [resolveProgress, jleq, mul100, jsMin, jsMax]
  · simp [resolveProgress, jleq, mul100, jsMin, jsMax]

/-- C6 amended: for finite numeric inputs both normalizations scale a value
at most 1 by 100 and clamp into [0,100] (0.42 to 42, 57 to 57, 142 to 100,
-5 to 0), and null or missing inputs yield null; the server-side
`buildProgress` nulls every non-finite number, while the client-side
`resolveProgress` nulls only NaN and clamps Infinity to 100 and -Infinity
to 0. -/
theorem C6_amended_progress_normalization :
    (∀ toNum : String → JNum,
      buildProgress toNum .null = none ∧
      buildProgress toNum .missing = none ∧
      buildProgress toNum (.num .nan) = none ∧
      buildProgress toNum (.num .inf) = none ∧
      buildProgress toNum (.num .ninf) = none ∧
      (∀ q : ℚ, buildProgress toNum (.num (.fin q)) =
        some (max 0 (min 100 (if q ≤ 1 then q * 100 else q))))) ∧
    resolveProgress .null = none ∧
    resolveProgress .undef = none ∧
    resolveProgress (.num .nan) = none ∧
    resolveProgress (.num .inf) = some (.fin 100) ∧
    resolveProgress (.num .ninf) = some (.fin 0) ∧
    (∀ q : ℚ, resolveProgress (.num (.fin q)) =
      some (.fin (max 0 (min 100 (if q ≤ 1 then q * 100 else q))))) ∧
    (∀ toNum : String → JNum,
      buildProgress toNum (.num (.fin (42/100))) = some 42 ∧
      buildProgress toNum (.num (.fin 57)) = some 57 ∧
      buildProgress toNum (.num (.fin 142)) = some 100 ∧
      buildProgress toNum (.num (.fin (-5))) = some 0) ∧
    resolveProgress (.num (.fin (42/100))) = some (.fin 42) ∧
    resolveProgress (.num (.fin 57)) = some (.fin 57) ∧
    resolveProgress (.num (.fin 142)) = some (.fin 100) ∧
    resolveProgress (.num (.fin (-5))) = some (.fin 0) := by
  refine ⟨?_, rfl, rfl, ?_, ?_, ?_, ?_, ?_, ?_, ?_, ?_, ?_⟩
  · intro toNum
    refine ⟨rfl, rfl, rfl, rfl, rfl, ?_⟩
    intro q
    simp [buildProgress, buildNumber]
  · simp [resolveProgress]
  · simp [resolveProgress, jleq, mul100, jsMin, jsMax]
  · simp [resolveProgress, jleq, mul100, jsMin, jsMax]
  · intro q
    by_cases hq : q ≤ 1
    · simp [resolveProgress, jleq, mul100, jsMin, jsMax, hq]
    · simp [resolveProgress, jleq, mul100, jsMin, jsMax, hq]
  · intro toNum
    refine ⟨?_, ?_, ?_, ?_⟩ <;>
      · simp [buildProgress, buildNumber]
        norm_num
  · simp [resolveProgress, jleq, mul100, jsMin, jsMax]
    norm_num
  · simp [resolveProgress, jleq, mul100, jsMin, jsMax]
    norm_num
  · simp [resolveProgress, jleq, mul100, jsMin, jsMax]
    norm_num
  · simp [resolveProgress, jleq, mul100, jsMin, jsMax]
    norm_num

/-- C5: the derived display state is computed by case-insensitive ordered
substring matching with the first match winning (`resolveStateDisplay`
agrees with the rule-list reading `resolveStateDisplaySpec` of the
specification on every input), an unmatched raw string is kept verbatim with
variant unknown, an empty or missing string yields the fixed "Desconocido"
label with variant unknown, and in particular "Printing layer 12" yields
printing, "Ready" yields idle and "Halted by error" yields error. -/
theorem C5_state_variant_derivation :
    (∀ raw, resolveStateDisplay raw = resolveStateDisplaySpec raw) ∧
    (resolveStateDisplay (some "Printing layer 12")).variant = .printing ∧
    (resolveStateDisplay (some "Ready")).variant = .idle ∧
    (resolveStateDisplay (some "Halted by error")).variant = .error ∧
    resolveStateDisplay (some "") = { label := "Desconocido", variant := .unknown } ∧
    resolveStateDisplay none = { label := "Desconocido", variant := .unknown } ∧
    (∀ r, ¬ r.isEmpty →
      (∀ pat ∈ [ "print", "complete", "done", "finish", "pause", "standby", "idle",
        "ready", "error", "fault", "halt"], containsSub (lowerStr r) pat = false) →
      resolveStateDisplay (some r) = { label := r, variant := .unknown }) := by
  refine ⟨?_, by decide, by decide, by decide, by decide, rfl, ?_⟩
  · intro raw
    cases raw with
    | none => rfl
    | some r =>
        by_cases hr : r.isEmpty
        · simp [resolveStateDisplay, resolveStateDisplaySpec, hr]
        · simp only [resolveStateDisplay, resolveStateDisplaySpec, specStateRules, hr,
            Bool.false_eq_true, if_false, List.find?, List.any_cons, List.any_nil,
            Bool.or_false]
          by_cases h1 : containsSub (lowerStr r) "print"
          · simp [h1]
          · simp only [h1, Bool.false_or]
            by_cases h2 : containsSub (lowerStr r) "complete"
            · simp [h2]
            · simp only [h2, Bool.false_or]
              by_cases h3 : containsSub (lowerStr r) "done"
              · simp [h3]
              · simp only [h3, Bool.false_or]
                by_cases h4 : containsSub (lowerStr r) "finish"
                · simp [h4]
                · simp only [h4, Bool.false_or]
                  by_cases h5 : containsSub (lowerStr r) "pause"
                  · simp [h5]
                  · simp only [h5, Bool.false_or]
                    by_cases h6 : containsSub (lowerStr r) "standby"
                    · simp [h6]
                    · simp only [h6, Bool.false_or]
                      by_cases h7 : containsSub (lowerStr r) "idle"
                      · simp [h7]
                      · simp only [h7, Bool.false_or]
                        by_cases h8 : containsSub (lowerStr r) "ready"
                        · simp [h8]
                        · simp only [h8, Bool.false_or]
                          by_cases h9 : containsSub (lowerStr r) "error"
                          · simp [h9]
                          · simp only [h9, Bool.false_or]
                            by_cases h10 : containsSub (lowerStr r) "fault"
                            · simp [h10]
                            · simp only [h10, Bool.false_or]
                              by_cases h11 : containsSub (lowerStr r) "halt"
                              · simp [h11]
                              · simp [h11]
  · intro r hr hpat
    have h1 := hpat "print" (by simp)
    have h2 := hpat "complete" (by simp)
    have h3 := hpat "done" (by simp)
    have h4 := hpat "finish" (by simp)
    have h5 := hpat "pause" (by simp)
    have h6 := hpat "standby" (by simp)
    have h7 := hpat "idle" (by simp)
    have h8 := hpat "ready" (by simp)
    have h9 := hpat "error" (by simp)
    have h10 := hpat "fault" (by simp)
    have h11 := hpat "halt" (by simp)
    simp [resolveStateDisplay, hr, h1, h2, h3, h4, h5, h6, h7, h8, h9, h10, h11]

/-- Witness for C5: a raw status string matched by no rule is kept verbatim
with variant unknown. -/
theorem C5_state_variant_derivation_witness :
    resolveStateDisplay (some "custom status") =
      { label := "custom status", variant := .unknown } :=
  C5_state_variant_derivation.2.2.2.2.2.2 "custom status" (by decide) (by decide)

/-! ### Read outputs are fixed points of sanitization -/

theorem sanitizeParts_nodes_valid (ns : List (JEntry RawNode)) (ps : List (JEntry RawPrinter))
    (ss : Option (List (String × JEntry RawState))) (u : JField) (t : ℚ) :
    ∀ e ∈ (sanitizeParts ns ps ss u t).nodes, isValidNode e = true := by
  intro e he
  rw [sanitizeParts_nodes] at he
  exact (List.mem_filter.1 he).2

theorem sanitizeParts_printers_valid (ns : List (JEntry RawNode))
    (ps : List (JEntry RawPrinter)) (ss : Option (List (String × JEntry RawState)))
    (u : JField) (t : ℚ) :
    ∀ e ∈ (sanitizeParts ns ps ss u t).printers,
      isValidPrinter (snapshotNodeIds (sanitizeParts ns ps ss u t)) e = true := by
  intro e he
  rw [sanitizeParts_printers] at he
  rw [snapshotNodeIds_sanitizeParts]
  exact (List.mem_filter.1 he).2

theorem sanitizeParts_states_good (ns : List (JEntry RawNode))
    (ps : List (JEntry RawPrinter)) (ss : Option (List (String × JEntry RawState)))
    (u : JField) (t : ℚ) {l : List (String × JEntry RawState)}
    (h : (sanitizeParts ns ps ss u t).states = some l) :
    l ≠ [] ∧ (keysOf l).Nodup ∧
    ∀ e ∈ l, (snapshotPrinterIds (sanitizeParts ns ps ss u t)).contains e.1 = true ∧
      isValidState e.2 = true := by
  rw [sanitizeParts_states] at h
  dsimp only at h
  split at h
  · rename_i hpos
    rw [Option.some.injEq] at h
    subst h
    refine ⟨fromEntries_ne_nil ?_, nodupKeys_fromEntries _, ?_⟩
    · intro hnil
      rw [hnil] at hpos
      simp at hpos
    · intro e he
      have he' := mem_fromEntries he
      have hcond := (List.mem_filter.1 he').2
      rw [Bool.and_eq_true] at hcond
      exact ⟨hcond.1, hcond.2⟩
  · cases h

theorem read_nodes_valid (d : Disk) (t : ℚ) :
    ∀ e ∈ (readSnapshotFromDisk d t).nodes, isValidNode e = true := by
  cases d with
  | missing => intro e he; simp [readSnapshotFromDisk, emptySnapshot] at he
  | corrupt => intro e he; simp [readSnapshotFromDisk, emptySnapshot] at he
  | stored raw =>
      cases raw with
      | none => exact sanitizeParts_nodes_valid _ _ _ _ _
      | some r => exact sanitizeParts_nodes_valid _ _ _ _ _

theorem read_printers_valid (d : Disk) (t : ℚ) :
    ∀ e ∈ (readSnapshotFromDisk d t).printers,
      isValidPrinter (snapshotNodeIds (readSnapshotFromDisk d t)) e = true := by
  cases d with
  | missing => intro e he; simp [readSnapshotFromDisk, emptySnapshot] at he
  | corrupt => intro e he; simp [readSnapshotFromDisk, emptySnapshot] at he
  | stored raw =>
      cases raw with
      | none => exact sanitizeParts_printers_valid _ _ _ _ _
      | some r => exact sanitizeParts_printers_valid _ _ _ _ _

theorem read_states_good (d : Disk) (t : ℚ) {l : List (String × JEntry RawState)}
    (h : (readSnapshotFromDisk d t).states = some l) :
    l ≠ [] ∧ (keysOf l).Nodup ∧
    ∀ e ∈ l, (snapshotPrinterIds (readSnapshotFromDisk d t)).contains e.1 = true ∧
      isValidState e.2 = true := by
  cases d with
  | missing => cases h
  | corrupt => cases h
  | stored raw =>
      cases raw with
      | none => exact sanitizeParts_states_good _ _ _ _ _ h
      | some r => exact sanitizeParts_states_good _ _ _ _ _ h

/-- Sanitization is the identity on any snapshot whose nodes are all valid,
whose printers are all valid against the present node ids, and whose state
map (when present) is non-empty with distinct keys, keys among the present
printer ids, and valid values. -/
theorem sanitizeOfSnapshot_id {s : Snapshot} (t : ℚ)
    (hn : ∀ e ∈ s.nodes, isValidNode e = true)
    (hp : ∀ e ∈ s.printers, isValidPrinter (snapshotNodeIds s) e = true)
    (hs : ∀ l, s.states = some l → l ≠ [] ∧ (keysOf l).Nodup ∧
      ∀ e ∈ l, (snapshotPrinterIds s).contains e.1 = true ∧ isValidState e.2 = true) :
    sanitizeOfSnapshot s t = s := by
  cases s with
  | mk ns ps ss u =>
      have hnodes : ns.filter isValidNode = ns := List.filter_eq_self.2 hn
      have hprinters : ps.filter (isValidPrinter (ns.filterMap nodeIdOf)) = ps :=
        List.filter_eq_self.2 hp
      unfold sanitizeOfSnapshot sanitizeParts
      dsimp only
      rw [hnodes, hprinters]
      simp only [Snapshot.mk.injEq, true_and]
      constructor
      · cases hss : ss with
        | none => simp
        | some l =>
            rcases hs l hss with ⟨hne, hnd, hall⟩
            have hfilter : l.filter (fun e =>
                ((ps.filterMap printerIdOf).contains e.1 && isValidState e.2)) = l := by
              apply List.filter_eq_self.2
              intro e he
              rw [Bool.and_eq_true]
              exact ⟨(hall e he).1, (hall e he).2⟩
            simp only [Option.getD_some]
            rw [hfilter]
            have hlen : l.length > 0 := by
              cases l with
              | nil => exact absurd rfl hne
              | cons x xs => simp
            rw [if_pos hlen, fromEntries_eq_self hnd]
      · trivial

theorem foldl_ite_setEntry_eq_filter {α : Type} (cond : String × α → Bool)
    (entries : List (String × α)) :
    ∀ acc : List (String × α),
      entries.foldl (fun a e => if cond e then setEntry a e.1 e.2 else a) acc =
        (entries.filter cond).foldl (fun a e => setEntry a e.1 e.2) acc := by
  induction entries with
  | nil => intro acc; rfl
  | cons x rest ih =>
      intro acc
      by_cases hc : cond x
      · simp [List.foldl_cons, List.filter_cons, hc, ih]
      · simp [List.foldl_cons, List.filter_cons, hc, ih]

theorem foldl_setEntry_all {α : Type} {P : String × α → Bool} {entries : List (String × α)} :
    ∀ {acc : List (String × α)}, (∀ e ∈ acc, P e = true) → (∀ e ∈ entries, P e = true) →
      ∀ e ∈ entries.foldl (fun a x => setEntry a x.1 x.2) acc, P e = true := by
  induction entries with
  | nil =>
      intro acc hacc _ e he
      exact hacc e he
  | cons x rest ih =>
      intro acc hacc hent e he
      refine ih (all_setEntry hacc (hent x (by simp))) ?_ e he
      intro e' he'
      exact hent e' (List.mem_cons_of_mem x he')

/-- C3 counterexample: against a snapshot holding the printer "p1", an input
entry whose value carries the out-of-enumeration variant "bogus" and the
out-of-range progress 500 fails the specification's state validation, yet
`upsertPrinterStates` merges it into the returned snapshot's state map
instead of ignoring it. -/
theorem C3_counterexample_invalid_state_merged :
    specValidState bogusStateC3 = false ∧
    isValidState bogusStateC3 = true ∧
    (match (upsertPrinterStates [("p1", bogusStateC3)] 3
        { disk := .stored (some rawOnePrinterC3), cache := none }).1 with
      | .ok s => s.states
      | .error _ => none) = some [("p1", bogusStateC3)] := by
  refine ⟨by decide, by decide, by decide⟩

/-- C3 amended: `upsertPrinterStates` always succeeds and returns a snapshot
whose states map is the previous state entries merged (in input order) with
exactly those input entries whose key is the id of a printer present in the
current snapshot and whose value passes the code's `isValidState` check
(label a non-empty string, variant any string, progress null or any number,
error/message null or string, updatedAt null or number - neither the variant
enumeration nor the progress range is checked); every other input entry is
silently ignored with no error and no change for its key, and an empty merge
result is stored as an absent map. -/
theorem C3_amended_upsert_merges_code_valid_entries :
    ∀ (d : Disk) (c : Option SnapshotCache) (entries : List (String × JEntry RawState))
      (t : ℚ),
      (upsertPrinterStates entries t { disk := d, cache := c }).1 =
        .ok { nodes := (readSnapshotFromDisk d t).nodes
              printers := (readSnapshotFromDisk d t).printers
              states :=
                (let merged := (entries.filter (fun e =>
                    (snapshotPrinterIds (readSnapshotFromDisk d t)).contains e.1 &&
                    isValidState e.2)).foldl (fun a e => setEntry a e.1 e.2)
                    ((readSnapshotFromDisk d t).states.getD [])
                 if merged.length > 0 then some merged else none)
              updatedAt := .fin t } := by
  intro d c entries t
  unfold upsertPrinterStates updateSnapshot
  dsimp only
  rw [Except.ok.injEq]
  rw [foldl_ite_setEntry_eq_filter] at *
  set current := readSnapshotFromDisk d t with hcurrent
  set merged := (entries.filter (fun e =>
      (snapshotPrinterIds current).contains e.1 && isValidState e.2)).foldl
      (fun a e => setEntry a e.1 e.2) (current.states.getD []) with hmerged
  have hmut : sanitizeOfSnapshot
      { nodes := current.nodes, printers := current.printers
        states := if merged.length > 0 then some merged else none
        updatedAt := current.updatedAt } t =
      { nodes := current.nodes, printers := current.printers
        states := if merged.length > 0 then some merged else none
        updatedAt := current.updatedAt } := by
    apply sanitizeOfSnapshot_id
    · intro e he
      exact read_nodes_valid d t e he
    · intro e he
      exact read_printers_valid d t e he
    · intro l hl
      dsimp only at hl
      split at hl
      · rename_i hpos
        rw [Option.some.injEq] at hl
        subst hl
        have hkeys0 : (keysOf (current.states.getD [])).Nodup := by
          cases hcs : current.states with
          | none => simp [keysOf]
          | some l0 => exact (read_states_good d t hcs).2.1
        have hall0 : ∀ e ∈ (current.states.getD []),
            ((snapshotPrinterIds current).contains e.1 && isValidState e.2) = true := by
          cases hcs : current.states with
          | none => simp
          | some l0 =>
              intro e he
              rw [Bool.and_eq_true]
              simp only [Option.getD_some] at he
              exact ⟨((read_states_good d t hcs).2.2 e he).1,
                ((read_states_good d t hcs).2.2 e he).2⟩
        refine ⟨?_, ?_, ?_⟩
        · intro hnil
          rw [hnil] at hpos
          simp at hpos
        · exact foldl_setEntry_nodupKeys hkeys0
        · intro e he
          have hP := foldl_setEntry_all hall0
            (fun e' he' => (List.mem_filter.1 he').2) e he
          rw [Bool.and_eq_true] at hP
          exact ⟨hP.1, hP.2⟩
      · cases hl
  rw [hmut]

/-- Witness for the amended C3: merging one valid entry and silently
dropping one entry keyed by an unknown printer id. -/
theorem C3_amended_upsert_merges_code_valid_entries_witness :
    (upsertPrinterStates [("p1", bogusStateC3), ("ghost", bogusStateC3)] 3
        { disk := .stored (some rawOnePrinterC3), cache := none }).1 =
      .ok { nodes := (readSnapshotFromDisk (.stored (some rawOnePrinterC3)) 3).nodes
            printers := (readSnapshotFromDisk (.stored (some rawOnePrinterC3)) 3).printers
            states :=
              (let merged := (([("p1", bogusStateC3), ("ghost", bogusStateC3)].filter (fun e =>
                  (snapshotPrinterIds (readSnapshotFromDisk (.stored (some rawOnePrinterC3)) 3)).contains e.1 &&
                  isValidState e.2)).foldl (fun a e => setEntry a e.1 e.2)
                  ((readSnapshotFromDisk (.stored (some rawOnePrinterC3)) 3).states.getD []))
               if merged.length > 0 then some merged else none)
            updatedAt := .fin 3 } :=
  C3_amended_upsert_merges_code_valid_entries (.stored (some rawOnePrinterC3)) none
    [("p1", bogusStateC3), ("ghost", bogusStateC3)] 3

/-! ### removeNode lemmas -/

theorem filter_length_eq_iff_all {α : Type} {p : α → Bool} {l : List α} :
    (l.filter p).length = l.length ↔ ∀ a ∈ l, p a = true := by
  constructor
  · intro h
    exact List.filter_eq_self.1 (List.Sublist.eq_of_length (List.filter_sublist l) h)
  · intro h
    rw [List.filter_eq_self.2 h]

theorem removeNode_not_found {nodeId : String} {t : ℚ} {st : Store}
    (h0 : nodeId.isEmpty = false)
    (hall : ∀ e ∈ (readSnapshotFromDisk st.disk t).nodes, nodeIdField e ≠ .str nodeId) :
    removeNode nodeId t st = (.error "El nodo indicado no existe.", st) := by
  unfold removeNode
  simp only [h0, Bool.false_eq_true, if_false]
  have hm : removeNodeMutator nodeId (readSnapshotFromDisk st.disk t) =
      .error "El nodo indicado no existe." := by
    unfold removeNodeMutator
    dsimp only
    rw [if_pos]
    apply filter_length_eq_iff_all.2
    intro e he
    simpa using hall e he
  rcases updateSnapshot_cases (removeNodeMutator nodeId) t st with
    ⟨e, hm', heq⟩ | ⟨n0, hm', heq⟩
  · rw [hm] at hm'
    rw [Except.error.injEq] at hm'
    rw [heq, hm']
  · rw [hm] at hm'
    cases hm'

theorem removeNode_ok_destruct {nodeId : String} {current : Snapshot} {n0 : Snapshot}
    (hm : removeNodeMutator nodeId current = .ok n0) :
    n0.nodes = current.nodes.filter (fun e => nodeIdField e != .str nodeId) ∧
    n0.printers = current.printers.filter (fun e => printerNodeIdField e != .str nodeId) := by
  unfold removeNodeMutator at hm
  dsimp only at hm
  split at hm
  · cases hm
  · rw [Except.ok.injEq] at hm
    subst hm
    exact ⟨rfl, rfl⟩

theorem removeNode_ok_post {nodeId : String} {t : ℚ} {st : Store} {s : Snapshot}
    (h : (removeNode nodeId t st).1 = .ok s) :
    (∀ e ∈ s.nodes, nodeIdField e ≠ .str nodeId) ∧
    (∀ p ∈ s.printers, printerNodeIdField p ≠ .str nodeId) ∧
    (∀ k ∈ stateKeys s, k ∈ snapshotPrinterIds s) := by
  unfold removeNode at h
  split at h
  · simp at h
  · rcases updateSnapshot_cases (removeNodeMutator nodeId) t st with
      ⟨e, hm, heq⟩ | ⟨n0, hm, heq⟩
    · rw [heq] at h
      simp at h
    · rw [heq] at h
      simp only [Except.ok.injEq] at h
      subst h
      rcases removeNode_ok_destruct hm with ⟨hnodes, hprinters⟩
      refine ⟨?_, ?_, ?_⟩
      · intro e he
        have he' : e ∈ (sanitizeOfSnapshot n0 t).nodes := he
        rw [sanitizeOfSnapshot] at he'
        rw [sanitizeParts_nodes] at he'
        have := (List.mem_filter.1 he').1
        rw [hnodes] at this
        have hpred := (List.mem_filter.1 this).2
        simpa using hpred
      · intro p hp
        have hp' : p ∈ (sanitizeOfSnapshot n0 t).printers := hp
        rw [sanitizeOfSnapshot] at hp'
        rw [sanitizeParts_printers] at hp'
        have := (List.mem_filter.1 hp').1
        rw [hprinters] at this
        have hpred := (List.mem_filter.1 this).2
        simpa using hpred
      · intro k hk
        have hk' : k ∈ stateKeys (sanitizeOfSnapshot n0 t) := hk
        have := stateKeys_sanitizeParts_sub n0.nodes n0.printers n0.states
          (.num n0.updatedAt) t hk'
        simpa using this

theorem removeNode_ok_of_mem {nodeId : String} {t : ℚ} (st : Store)
    (h0 : nodeId.isEmpty = false)
    (hmem : ∃ e ∈ (readSnapshotFromDisk st.disk t).nodes, nodeIdField e = .str nodeId) :
    ∃ s, (removeNode nodeId t st).1 = .ok s := by
  unfold removeNode
  simp only [h0, Bool.false_eq_true, if_false]
  rcases updateSnapshot_cases (removeNodeMutator nodeId) t st with
    ⟨e, hm, heq⟩ | ⟨n0, hm, heq⟩
  · exfalso
    unfold removeNodeMutator at hm
    dsimp only at hm
    split at hm
    · rename_i hlen
      rcases hmem with ⟨e0, he0, hid⟩
      have hall := filter_length_eq_iff_all.1 hlen
      have hbad := hall e0 he0
      rw [hid] at hbad
      simp at hbad
    · cases hm
  · exact ⟨_, by rw [heq]⟩

/-! ### registerPrinter success-path lemmas -/

theorem registerPrinterMutator_newnode {input : RegisterInput} {nid pid : String} {t : ℚ}
    (current : Snapshot) (hn : input.nodeId = none)
    (hname : (jsTrim ((input.nodeName).getD "")).isEmpty = false) :
    ∃ states', registerPrinterMutator input nid pid t current =
      .ok { nodes := current.nodes ++
              [.obj { id := .str nid, name := .str (jsTrim ((input.nodeName).getD ""))
                      createdAt := .num (.fin t) }]
            printers := current.printers ++
              [.obj { id := .str pid, name := .str (jsTrim input.name)
                      baseUrl := .str (jsTrim input.baseUrl), nodeId := .str nid
                      createdAt := .num (.fin t) }]
            states := states', updatedAt := current.updatedAt } := by
  unfold registerPrinterMutator
  rw [hn]
  dsimp only
  rw [hname]
  simp only [Bool.false_eq_true, if_false]
  exact ⟨_, rfl⟩

theorem registerPrinter_newnode_ok {input : RegisterInput} {nid pid : String} {t : ℚ}
    (st : Store) (hn : input.nodeId = none)
    (h1 : (jsTrim input.name).isEmpty = false)
    (h2 : (jsTrim input.baseUrl).isEmpty = false)
    (h3 : (jsTrim ((input.nodeName).getD "")).isEmpty = false) :
    ∃ n0, registerPrinterMutator input nid pid t (readSnapshotFromDisk st.disk t) = .ok n0 ∧
      registerPrinter input nid pid t st =
        (.ok { sanitizeOfSnapshot n0 t with updatedAt := .fin t },
         writeSnapshotToDisk { sanitizeOfSnapshot n0 t with updatedAt := .fin t } t st) := by
  unfold registerPrinter
  dsimp only
  rw [h1, h2]
  simp only [Bool.false_eq_true, if_false]
  rcases updateSnapshot_cases (registerPrinterMutator input nid pid t) t st with
    ⟨e, hm, heq⟩ | ⟨n0, hm, heq⟩
  · exfalso
    rcases registerPrinterMutator_newnode (readSnapshotFromDisk st.disk t) hn h3 with
      ⟨states', hok⟩
    rw [hok] at hm
    cases hm
  · exact ⟨n0, hm, heq⟩

theorem isValidNode_newnode {nid nodeName : String} {t : ℚ}
    (h5 : nid.isEmpty = false) (hname : nodeName.isEmpty = false) :
    isValidNode (.obj { id := .str nid, name := .str nodeName
                        createdAt := .num (.fin t) }) = true := by
  simp [isValidNode, isNonEmptyStr, isNumF, h5, hname]

/-- C7 counterexample: for the empty-string `nodeId` - which no node in any
snapshot can carry, since sanitization requires node ids to be non-empty -
`removeNode` does not fail with the "not found" error: it fails with the
"identifier required" validation error before consulting the snapshot. -/
theorem C7_counterexample_empty_id_error :
    (removeNode "" 0 { disk := Disk.missing, cache := none }).1 =
      .error "Se requiere el identificador del nodo." ∧
    "Se requiere el identificador del nodo." ≠ "El nodo indicado no existe." ∧
    (∀ e ∈ (readSnapshotFromDisk Disk.missing 0).nodes, nodeIdField e ≠ .str "") := by
  refine ⟨rfl, by decide, ?_⟩
  intro e he
  simp [readSnapshotFromDisk, emptySnapshot] at he

/-- C7 amended: for every non-empty `nodeId`: when no node in the current
snapshot carries that id, `removeNode` fails with the "not found" error and
leaves the store untouched (the empty id instead fails earlier with the
"identifier required" validation error); when some node carries it, the call
succeeds, and every successfully returned snapshot omits that node, omits
every printer whose `nodeId` equalled it, and keeps only state entries keyed
by a present printer.  Consequently registering a printer with a new node
name and then removing that (fresh, non-empty) node id succeeds and leaves
zero printers referencing the node and zero state entries for printers that
existed under it. -/
theorem C7_removeNode_cascade :
    (∀ (nodeId : String) (t : ℚ) (st : Store), nodeId.isEmpty = false →
      (∀ e ∈ (readSnapshotFromDisk st.disk t).nodes, nodeIdField e ≠ .str nodeId) →
      removeNode nodeId t st = (.error "El nodo indicado no existe.", st)) ∧
    (∀ (nodeId : String) (t : ℚ) (st : Store), nodeId.isEmpty = false →
      (∃ e ∈ (readSnapshotFromDisk st.disk t).nodes, nodeIdField e = .str nodeId) →
      ∃ s, (removeNode nodeId t st).1 = .ok s) ∧
    (∀ (nodeId : String) (t : ℚ) (st : Store) (s : Snapshot),
      (removeNode nodeId t st).1 = .ok s →
      (∀ e ∈ s.nodes, nodeIdField e ≠ .str nodeId) ∧
      (∀ p ∈ s.printers, printerNodeIdField p ≠ .str nodeId) ∧
      (∀ k ∈ stateKeys s, k ∈ snapshotPrinterIds s)) ∧
    (∀ (d : Disk) (c : Option SnapshotCache) (t t' : ℚ) (input : RegisterInput)
      (nid pid : String),
      input.nodeId = none →
      (jsTrim input.name).isEmpty = false →
      (jsTrim input.baseUrl).isEmpty = false →
      (jsTrim ((input.nodeName).getD "")).isEmpty = false →
      nid.isEmpty = false →
      ∃ s2, (removeNode nid t' (registerPrinter input nid pid t
          { disk := d, cache := c }).2).1 = .ok s2 ∧
        (∀ p ∈ s2.printers, printerNodeIdField p ≠ .str nid) ∧
        (∀ e ∈ s2.nodes, nodeIdField e ≠ .str nid) ∧
        (∀ k ∈ stateKeys s2, k ∈ snapshotPrinterIds s2)) := by
  refine ⟨?_, ?_, ?_, ?_⟩
  · intro nodeId t st h0 hall
    exact removeNode_not_found h0 hall
  · intro nodeId t st h0 hmem
    exact removeNode_ok_of_mem st h0 hmem
  · intro nodeId t st s h
    exact removeNode_ok_post h
  · intro d c t t' input nid pid hn h1 h2 h3 h5
    rcases registerPrinter_newnode_ok { disk := d, cache := c } hn h1 h2 h3 with
      ⟨n0, hm, heq⟩
    set newNode : JEntry RawNode :=
      .obj { id := .str nid, name := .str (jsTrim ((input.nodeName).getD ""))
             createdAt := .num (.fin t) } with hnew
    have hvalid : isValidNode newNode = true := isValidNode_newnode h5 h3
    rcases registerPrinterMutator_newnode (readSnapshotFromDisk d t) hn h3 with
      ⟨states', hok⟩
    have hn0 : n0 = { nodes := (readSnapshotFromDisk d t).nodes ++ [newNode]
                      printers := (readSnapshotFromDisk d t).printers ++
                        [.obj { id := .str pid, name := .str (jsTrim input.name)
                                baseUrl := .str (jsTrim input.baseUrl), nodeId := .str nid
                                createdAt := .num (.fin t) }]
                      states := states'
                      updatedAt := (readSnapshotFromDisk d t).updatedAt } := by
      have := hm
      rw [hok] at this
      rw [Except.ok.injEq] at this
      exact this.symm
    set next : Snapshot := { sanitizeOfSnapshot n0 t with updatedAt := .fin t } with hnext
    have hmemnext : newNode ∈ next.nodes := by
      have hmem0 : newNode ∈ n0.nodes := by
        rw [hn0]
        simp
      have : newNode ∈ n0.nodes.filter isValidNode :=
        List.mem_filter.2 ⟨hmem0, hvalid⟩
      exact this
    have hst2 : (registerPrinter input nid pid t { disk := d, cache := c }).2 =
        writeSnapshotToDisk next t { disk := d, cache := c } := by
      rw [heq]
    have hmemread : ∃ e ∈ (readSnapshotFromDisk
        (writeSnapshotToDisk next t { disk := d, cache := c }).disk t').nodes,
        nodeIdField e = .str nid := by
      refine ⟨newNode, ?_, rfl⟩
      show newNode ∈ (sanitizeSnapshot (some (rawOfSnapshot next)) t').nodes
      rw [sanitizeSnapshot]
      rw [sanitizeParts_nodes]
      refine List.mem_filter.2 ⟨?_, hvalid⟩
      dsimp only [rawOfSnapshot]
      rw [Option.getD_some]
      exact List.mem_map_of_mem jsonOfNodeEntry hmemnext
    rw [hst2]
    rcases removeNode_ok_of_mem (writeSnapshotToDisk next t
      { disk := d, cache := c }) h5 hmemread with ⟨s2, hs2⟩
    rcases removeNode_ok_post hs2 with ⟨pn, pp, pk⟩
    exact ⟨s2, hs2, pp, pn, pk⟩

/-- Witness for the amended C7: register a printer under the fresh node
"NuevoNodo", then remove that node; also exercise the not-found branch. -/
theorem C7_removeNode_cascade_witness :
    (∃ s2, (removeNode "nn1" 6 (registerPrinter ⟨"Imp", "http://y", none, some "NuevoNodo"⟩
        "nn1" "pp1" 5 { disk := .stored (some rawOnePrinterC3), cache := none }).2).1 =
        .ok s2 ∧
      (∀ p ∈ s2.printers, printerNodeIdField p ≠ .str "nn1") ∧
      (∀ e ∈ s2.nodes, nodeIdField e ≠ .str "nn1") ∧
      (∀ k ∈ stateKeys s2, k ∈ snapshotPrinterIds s2)) ∧
    removeNode "zz" 0 { disk := Disk.missing, cache := none } =
      (.error "El nodo indicado no existe.", { disk := Disk.missing, cache := none }) := by
  constructor
  · exact C7_removeNode_cascade.2.2.2 (.stored (some rawOnePrinterC3)) none 5 6
      ⟨"Imp", "http://y", none, some "NuevoNodo"⟩ "nn1" "pp1"
      rfl (by decide) (by decide) (by decide) (by decide)
  · refine C7_removeNode_cascade.1 "zz" 0 { disk := Disk.missing, cache := none }
      (by decide) ?_
    intro e he
    simp [readSnapshotFromDisk, emptySnapshot] at he

end Fabrik
